import Mathlib

/-!
Shallow embedding of the command dispatch and dual-state synchronization
engine of `src/app.rs` (function `execute_tool_call` and the data it
manipulates).  Scalar `f32`/`f64` values are modelled exactly as rationals:
the dispatcher only copies them between records and never performs float
arithmetic on them.  GPU handles, the network, and the noise generator are
external collaborators; their state effects visible to the dispatcher
(object insertion, config storage) are modelled from the spec where noted.
-/

namespace EntropyChat

/-- `[f32; 2]` pair, modelled as exact rationals (values are only copied). -/
abbrev Vec2 := Rat × Rat

/-- `[f32; 3]` triple, modelled as exact rationals (values are only copied). -/
abbrev Vec3 := Rat × Rat × Rat

/-- `[f32; 4]` quadruple, modelled as exact rationals (values are only copied). -/
abbrev Vec4 := Rat × Rat × Rat × Rat

/-- The `as u32` cast Rust applies to an `f32`: truncation toward zero,
saturating at `0` below and at `u32::MAX` above. -/
def ratToU32 (q : Rat) : Nat :=
  min q.floor.toNat (2 ^ 32 - 1)

/-- `ComponentKind` tags from `entropy_engine::helpers::saved_data`, as used in
`app.rs` (spec section 3 lists the same tags). -/
inductive ComponentKind
  | Model
  | PointLight
  | Collectable
  | NPC
  | ProceduralTree
  | ProceduralGrass
  | Landscape
  deriving DecidableEq

/-- `CollectableType` variants matched in the `spawnCollectable` branch. -/
inductive CollectableType
  | Item
  | MeleeWeapon
  | RangedWeapon
  | Armor
  deriving DecidableEq

/-- `CombatType` variants matched in the `spawnNPC` branch. -/
inductive CombatType
  | Melee
  | Ranged
  deriving DecidableEq

/-- Generic placement properties of a `ComponentRecord` (`GenericProperties`). -/
structure GenericProperties where
  name : String
  position : Vec3
  rotation : Vec3
  scale : Vec3

/-- Modelled from the spec: the engine-side `Default` for `GenericProperties`
(spec section 4.4 states the defaults position/rotation `[0,0,0]`,
scale `[1,1,1]`; the name defaults to the empty string). -/
def GenericProperties.default : GenericProperties :=
  { name := "", position := (0, 0, 0), rotation := (0, 0, 0), scale := (1, 1, 1) }

/-- `LightProperties` of a point-light `ComponentRecord` (colour is `[f32; 4]`). -/
structure LightProperties where
  color : Vec4
  intensity : Rat

/-- `CollectableProperties` of a collectable `ComponentRecord`. -/
structure CollectableProperties where
  model_id : Option String
  collectable_type : Option CollectableType
  stat_id : Option String

/-- `AttackStats` built in the `spawnNPC` branch. -/
structure AttackStats where
  damage : Rat
  range : Rat
  cooldown : Rat
  wind_up_time : Rat
  recovery_time : Rat

/-- `BehaviorConfig` built in the `spawnNPC` branch. -/
structure BehaviorConfig where
  aggressiveness : Rat
  combat_type : CombatType
  wander_radius : Rat
  wander_speed : Rat
  detection_radius : Rat
  melee_stats : Option AttackStats
  ranged_stats : Option AttackStats

/-- `NPCProperties` of an NPC `ComponentRecord`. -/
structure NPCProperties where
  model_id : String
  behavior : BehaviorConfig

/-- `ProceduralTreeProperties` of a tree `ComponentRecord`. -/
structure ProceduralTreeProperties where
  seed : Nat
  trunk_height : Rat
  trunk_radius : Rat
  branch_levels : Nat
  foliage_radius : Rat

/-- Modelled from the spec: the engine-side `Default` for
`ProceduralTreeProperties` (the values never reach a claim; the
`configureTrees` branch only installs it before overwriting fields). -/
def ProceduralTreeProperties.default : ProceduralTreeProperties :=
  { seed := 0, trunk_height := 7 / 2, trunk_radius := 1 / 4,
    branch_levels := 4, foliage_radius := 1 / 2 }

/-- `ProceduralGrassProperties` of a grass `ComponentRecord`
(`blade_density` is a `u32` in the document). -/
structure ProceduralGrassProperties where
  wind_strength : Rat
  wind_speed : Rat
  blade_height : Rat
  blade_width : Rat
  blade_density : Nat
  render_distance : Rat
  grid_size : Rat
  brownian_strength : Rat

/-- Modelled from the spec: the engine-side `Default` for
`ProceduralGrassProperties` (only installed before field-wise overwriting
in the `configureGrass` update path; the values never reach a claim). -/
def ProceduralGrassProperties.default : ProceduralGrassProperties :=
  { wind_strength := 5 / 2, wind_speed := 3 / 10, blade_height := 11 / 4,
    blade_width := 3 / 100, blade_density := 15, render_distance := 150,
    grid_size := 10, brownian_strength := 1 / 2 }

/-- `ProceduralSkyConfig` of a level, as updated by the `configureSky` branch. -/
structure ProceduralSkyConfig where
  horizon_color : Vec3
  zenith_color : Vec3
  sun_direction : Vec3
  sun_color : Vec3
  sun_intensity : Rat

/-- Modelled from the spec: the engine-side `Default` for
`ProceduralSkyConfig`, installed on first configuration (values immaterial
to the claims). -/
def ProceduralSkyConfig.default : ProceduralSkyConfig :=
  { horizon_color := (0, 0, 0), zenith_color := (0, 0, 0),
    sun_direction := (0, 0, 0), sun_color := (0, 0, 0), sun_intensity := 1 }

/-- One placed entity of the scene document (`ComponentData`). -/
structure ComponentData where
  id : String
  kind : Option ComponentKind
  asset_id : String
  generic_properties : GenericProperties
  light_properties : Option LightProperties
  collectable_properties : Option CollectableProperties
  npc_properties : Option NPCProperties
  procedural_tree_properties : Option ProceduralTreeProperties
  procedural_grass_properties : Option ProceduralGrassProperties
  rhai_script_path : Option String

/-- The `..Default::default()` record used when `app.rs` builds a new
`ComponentData`: every optional block absent, empty strings, default
generic placement. -/
def ComponentData.default : ComponentData :=
  { id := "", kind := none, asset_id := "",
    generic_properties := GenericProperties.default,
    light_properties := none, collectable_properties := none,
    npc_properties := none, procedural_tree_properties := none,
    procedural_grass_properties := none, rhai_script_path := none }

/-- A model asset of the catalog (`saved_state.models` entries with `id` and
`fileName`, the only fields the dispatcher reads). -/
structure ModelAsset where
  id : String
  fileName : String

/-- The heightmap file reference of a landscape asset (`heightmap.fileName`). -/
structure HeightmapFile where
  fileName : String

/-- A landscape asset of the catalog (`saved_state.landscapes` entries). -/
structure LandscapeAsset where
  id : String
  heightmap : Option HeightmapFile

/-- A stat template of the catalog (`saved_state.stats`; the dispatcher reads
only its `id` and passes the record through to the engine). -/
structure Stat where
  id : String

/-- One level of the scene document; `app.rs` touches its `components`
collection and its `procedural_sky` block. -/
structure Level where
  components : Option (List ComponentData)
  procedural_sky : Option ProceduralSkyConfig

/-- The durable scene document (`SavedState`), restricted to the fields the
dispatcher reads or writes. -/
structure SavedState where
  levels : Option (List Level)
  models : List ModelAsset
  stats : Option (List Stat)
  landscapes : Option (List LandscapeAsset)

/-- A mesh transform of a live model; `update_position` / `update_rotation` /
`update_scale` are modelled from the spec as plain setters ("update
position/rotation/scale fields present in the argument"). -/
structure Transform where
  position : Vec3
  rotation : Vec3
  scale : Vec3

/-- Modelled from the spec: a freshly constructed object's identity transform. -/
def Transform.default : Transform :=
  { position := (0, 0, 0), rotation := (0, 0, 0), scale := (1, 1, 1) }

/-- A mesh of a live model. -/
structure Mesh where
  transform : Transform

/-- A live model of the renderer state, keyed by its component id. -/
structure LiveModel where
  id : String
  meshes : List Mesh

/-- The live `PointLight` record pushed by the `spawnPointLight` branch
(`position`, `color`, `intensity`, `max_distance`; note it carries no id —
the GPU padding words are dropped from the model). -/
structure PointLight where
  position : Vec3
  color : Vec3
  intensity : Rat
  max_distance : Rat

/-- The live water plane configuration: every field the `configureWater`
branch can assign. -/
structure WaterConfig where
  shallow_color : Vec4
  medium_color : Vec4
  deep_color : Vec4
  ripple_amplitude_multiplier : Rat
  ripple_freq : Rat
  ripple_speed : Rat
  shoreline_foam_range : Rat
  crest_foam_min : Rat
  crest_foam_max : Rat
  sparkle_intensity : Rat
  sparkle_threshold : Rat
  subsurface_multiplier : Rat
  fresnel_power : Rat
  fresnel_multiplier : Rat
  wave1_amplitude : Rat
  wave1_frequency : Rat
  wave1_speed : Rat
  wave1_steepness : Rat
  wave1_direction : Vec2
  wave2_amplitude : Rat
  wave2_frequency : Rat
  wave2_speed : Rat
  wave2_steepness : Rat
  wave2_direction : Vec2
  wave3_amplitude : Rat
  wave3_frequency : Rat
  wave3_speed : Rat
  wave3_steepness : Rat
  wave3_direction : Vec2

/-- Modelled from the spec: the engine default `WaterConfig` installed by
`handle_add_water_plane` (values immaterial to the claims). -/
def WaterConfig.default : WaterConfig :=
  { shallow_color := (0, 0, 0, 1), medium_color := (0, 0, 0, 1),
    deep_color := (0, 0, 0, 1), ripple_amplitude_multiplier := 1,
    ripple_freq := 1, ripple_speed := 1, shoreline_foam_range := 1,
    crest_foam_min := 0, crest_foam_max := 1, sparkle_intensity := 1,
    sparkle_threshold := 1, subsurface_multiplier := 1, fresnel_power := 1,
    fresnel_multiplier := 1, wave1_amplitude := 1, wave1_frequency := 1,
    wave1_speed := 1, wave1_steepness := 1, wave1_direction := (1, 0),
    wave2_amplitude := 1, wave2_frequency := 1, wave2_speed := 1,
    wave2_steepness := 1, wave2_direction := (0, 1), wave3_amplitude := 1,
    wave3_frequency := 1, wave3_speed := 1, wave3_steepness := 1,
    wave3_direction := (1, 1) }

/-- A live water plane; `update_config` is modelled from the spec as storing
the new configuration. -/
structure WaterPlane where
  config : WaterConfig

/-- The live grass system configuration (`GrassConfig` fields the
`configureGrass` branch assigns; `blade_density` is an `f32` live, unlike
the `u32` stored in the document). -/
structure GrassLiveConfig where
  wind_strength : Rat
  wind_speed : Rat
  blade_height : Rat
  blade_width : Rat
  blade_density : Rat
  render_distance : Rat

/-- A live grass system. -/
structure GrassSystem where
  config : GrassLiveConfig

/-- A live procedural-tree system; `regenerate` is modelled from the spec as
storing the properties it is given. -/
structure TreeSystem where
  props : ProceduralTreeProperties

/-- A live landscape; `add_landscape` is modelled from the spec as inserting
one landscape carrying the id and position it is given. -/
structure LiveLandscape where
  id : String
  position : Vec3

/-- A live debug primitive (cube or sphere): only its transform is relevant
to the dispatcher, which positions and scales it after construction. -/
structure Primitive where
  transform : Transform

/-- A live NPC inserted by `handle_add_npc`, modelled from the spec as keyed
by the generated component id. -/
structure LiveNPC where
  id : String

/-- A live collectable inserted by `handle_add_collectable`, modelled from
the spec as keyed by the generated component id. -/
structure LiveCollectable where
  id : String

/-- The render-ready mirror of the scene (`RendererState`), restricted to the
collections the dispatcher reads or writes (`terrain_managers` holds opaque
managers: the dispatcher only ever clears the collection). -/
structure RendererState where
  models : List LiveModel
  point_lights : List PointLight
  water_planes : List WaterPlane
  landscapes : List LiveLandscape
  terrain_managers : List Unit
  grasses : List GrassSystem
  procedural_trees : List TreeSystem
  cubes : List Primitive
  spheres : List Primitive
  npcs : List LiveNPC
  collectables : List LiveCollectable

/-- The editor slice the dispatcher works on: the durable document and the
live renderer state (GPU resources, camera and bind-group layouts are
external handles assumed present in an initialized session and carry no
dispatcher-visible state). -/
structure Editor where
  saved_state : Option SavedState
  renderer_state : Option RendererState



/-! ### Command argument records (the per-command serde structs in `app.rs`) -/

/-- `TransformObjectArgs`. -/
structure TransformObjectArgs where
  component_id : String
  translation : Option Vec3
  rotation : Option Vec3
  scale : Option Vec3

/-- `ConfigureWaterArgs`. -/
structure ConfigureWaterArgs where
  component_id : Option String
  shallow_color : Option Vec3
  medium_color : Option Vec3
  deep_color : Option Vec3
  ripple_amplitude_multiplier : Option Rat
  ripple_freq : Option Rat
  ripple_speed : Option Rat
  shoreline_foam_range : Option Rat
  crest_foam_min : Option Rat
  crest_foam_max : Option Rat
  sparkle_intensity : Option Rat
  sparkle_threshold : Option Rat
  subsurface_multiplier : Option Rat
  fresnel_power : Option Rat
  fresnel_multiplier : Option Rat
  wave1_amplitude : Option Rat
  wave1_frequency : Option Rat
  wave1_speed : Option Rat
  wave1_steepness : Option Rat
  wave1_direction : Option Vec2
  wave2_amplitude : Option Rat
  wave2_frequency : Option Rat
  wave2_speed : Option Rat
  wave2_steepness : Option Rat
  wave2_direction : Option Vec2
  wave3_amplitude : Option Rat
  wave3_frequency : Option Rat
  wave3_speed : Option Rat
  wave3_steepness : Option Rat
  wave3_direction : Option Vec2

/-- `ConfigureGrassArgs` (`blade_density` arrives as an `f32` and is cast to
`u32` for the document). -/
structure ConfigureGrassArgs where
  component_id : Option String
  wind_strength : Option Rat
  wind_speed : Option Rat
  blade_height : Option Rat
  blade_width : Option Rat
  blade_density : Option Rat
  render_distance : Option Rat

/-- `SpawnPrimitiveArgs` (`type` mirrors the Rust raw identifier `r#type`). -/
structure SpawnPrimitiveArgs where
  type : String
  position : Vec3
  scale : Option Vec3

/-- `ConfigureSkyArgs`. -/
structure ConfigureSkyArgs where
  component_id : Option String
  horizon_color : Option Vec3
  zenith_color : Option Vec3
  sun_direction : Option Vec3
  sun_color : Option Vec3
  sun_intensity : Option Rat

/-- `ConfigureTreesArgs`. -/
structure ConfigureTreesArgs where
  component_id : Option String
  seed : Option Nat
  trunk_height : Option Rat
  trunk_radius : Option Rat
  branch_levels : Option Nat
  foliage_radius : Option Rat

/-- `SpawnModelArgs`. -/
structure SpawnModelArgs where
  asset_id : String
  position : Option Vec3
  rotation : Option Vec3
  scale : Option Vec3

/-- `SpawnPointLightArgs`. -/
structure SpawnPointLightArgs where
  position : Vec3
  color : Option Vec3
  intensity : Option Rat
  radius : Option Rat

/-- `SpawnCollectableArgs`. -/
structure SpawnCollectableArgs where
  asset_id : String
  type : String
  position : Option Vec3
  rotation : Option Vec3
  scale : Option Vec3

/-- `SpawnNPCArgs` (the `health` field is decoded but never read). -/
structure SpawnNPCArgs where
  asset_id : String
  position : Option Vec3
  rotation : Option Vec3
  scale : Option Vec3
  aggressiveness : Option Rat
  combat_type : Option String
  wander_radius : Option Rat
  wander_speed : Option Rat
  detection_radius : Option Rat
  damage : Option Rat
  health : Option Rat

/-- `SaveScriptArgs`. -/
structure SaveScriptArgs where
  filename : String
  content : String
  componentId : Option String

/-- `TerrainFeatureArgs` (consumed only by the external heightfield
generator; carried for decode fidelity). -/
structure TerrainFeatureArgs where
  type : String
  center : Vec2
  radius : Rat
  intensity : Rat
  falloff : String
  flat_top : Option Rat
  transition : Option Rat

/-- `GenerateHeightmapArgs`. -/
structure GenerateHeightmapArgs where
  component_id : Option String
  seed : Option Nat
  scale : Option Rat
  persistence : Option Rat
  lacunarity : Option Rat
  features : Option (List TerrainFeatureArgs)

/-- A dispatched command: one constructor per command name handled by
`execute_tool_call`, carrying the decode result of its raw payload
(`none` models a payload that failed to decode against the command's
serde schema); `unknown` is any unrecognised command name, which falls
through every branch. -/
inductive Cmd
  | transformObject (args : Option TransformObjectArgs)
  | configureWater (args : Option ConfigureWaterArgs)
  | configureSky (args : Option ConfigureSkyArgs)
  | configureTrees (args : Option ConfigureTreesArgs)
  | spawnModel (args : Option SpawnModelArgs)
  | spawnPointLight (args : Option SpawnPointLightArgs)
  | spawnCollectable (args : Option SpawnCollectableArgs)
  | configureGrass (args : Option ConfigureGrassArgs)
  | spawnPrimitive (args : Option SpawnPrimitiveArgs)
  | spawnNPC (args : Option SpawnNPCArgs)
  | saveScript (args : Option SaveScriptArgs)
  | generateHeightmap (args : Option GenerateHeightmapArgs)
  | unknown (name : String)

/-! ### Shared helpers -/

/-- Update the first list element satisfying `p` (the effect of
`iter_mut().find(...)` followed by a mutation). -/
def updateFirst {α : Type} (p : α → Bool) (f : α → α) : List α → List α
  | [] => []
  | x :: xs => if p x then f x :: xs else x :: updateFirst p f xs

/-- Apply `f` to the first level of the document when one exists
(`levels.as_mut().and_then(|l| l.get_mut(0))`). -/
def modifyLevel0 (f : Level → Level) (s : SavedState) : SavedState :=
  match s.levels with
  | some (l :: ls) => { s with levels := some (f l :: ls) }
  | _ => s

/-- Append a component to a level, creating the collection when absent
(the `if let Some(components) ... else level.components = Some(vec![...])`
pattern of the spawn branches). -/
def pushComponent (c : ComponentData) (l : Level) : Level :=
  match l.components with
  | some cs => { l with components := some (cs ++ [c]) }
  | none => { l with components := some [c] }

/-- Asset catalog lookup: the file name of the model asset with the given id,
or `""` when the id does not resolve (`asset_file_name` starts out empty and
is only assigned on a successful find). -/
def resolveModel (models : List ModelAsset) (assetId : String) : String :=
  match models.find? (fun m => m.id == assetId) with
  | some m => m.fileName
  | none => ""

/-- The file name a spawn branch resolves for `assetId` given the optional
editor (empty when the pipeline, editor or document is absent). -/
def resolvedFile (ed : Option Editor) (assetId : String) : String :=
  match ed with
  | some e =>
    match e.saved_state with
    | some s => resolveModel s.models assetId
    | none => ""
  | none => ""

/-- The first stat template of the document, when the stats collection exists
and is non-empty (`stats[0]` in the `spawnCollectable` branch). -/
def firstStat (s : SavedState) : Option Stat :=
  match s.stats with
  | some (st :: _) => some st
  | _ => none

/-- The `match args.r#type.as_str()` of the `spawnCollectable` branch. -/
def parseCollectableType (s : String) : CollectableType :=
  if s == "MeleeWeapon" then CollectableType.MeleeWeapon
  else if s == "RangedWeapon" then CollectableType.RangedWeapon
  else if s == "Armor" then CollectableType.Armor
  else CollectableType.Item

/-- The `match args.combat_type.as_deref()` of the `spawnNPC` branch. -/
def parseCombatType (s : Option String) : CombatType :=
  match s with
  | some t => if t == "Ranged" then CombatType.Ranged else CombatType.Melee
  | none => CombatType.Melee

/-- Does the component carry the `ProceduralGrass` kind tag? -/
def grassKind (c : ComponentData) : Bool :=
  match c.kind with
  | some ComponentKind.ProceduralGrass => true
  | _ => false

/-- Does the component carry the `ProceduralTree` kind tag? -/
def treeKind (c : ComponentData) : Bool :=
  match c.kind with
  | some ComponentKind.ProceduralTree => true
  | _ => false

/-- Does the component carry the `Landscape` kind tag? -/
def landscapeKind (c : ComponentData) : Bool :=
  match c.kind with
  | some ComponentKind.Landscape => true
  | _ => false

/-! ### Per-command effect functions -/

/-- Field-wise generic-property update of the `transformObject` document
mutation: each argument field present overwrites the matching placement
field, absent fields are left unchanged. -/
def applyTransformArgs (a : TransformObjectArgs) (c : ComponentData) : ComponentData :=
  let g := c.generic_properties
  let g := match a.translation with
    | some t => { g with position := t }
    | none => g
  let g := match a.rotation with
    | some r => { g with rotation := r }
    | none => g
  let g := match a.scale with
    | some v => { g with scale := v }
    | none => g
  { c with generic_properties := g }

/-- Field-wise mesh-transform update of the `transformObject` live mutation. -/
def applyTransformMesh (a : TransformObjectArgs) (m : Mesh) : Mesh :=
  let t := m.transform
  let t := match a.translation with
    | some v => { t with position := v }
    | none => t
  let t := match a.rotation with
    | some v => { t with rotation := v }
    | none => t
  let t := match a.scale with
    | some v => { t with scale := v }
    | none => t
  { m with transform := t }

/-- The per-level document mutation of `transformObject`: update the first
component whose id matches (no-op when the collection or the match is
absent). -/
def transformLevel (a : TransformObjectArgs) (l : Level) : Level :=
  match l.components with
  | some cs =>
    let cs2 := updateFirst (fun c => c.id == a.component_id) (applyTransformArgs a) cs
    { l with components := some cs2 }
  | none => l

/-- Document mutation of `transformObject`: apply `transformLevel` to the
first level. -/
def transformObjectDoc (a : TransformObjectArgs) (s : SavedState) : SavedState :=
  modifyLevel0 (transformLevel a) s

/-- The per-model live mutation of `transformObject`: update every mesh of
the model. -/
def transformModel (a : TransformObjectArgs) (m : LiveModel) : LiveModel :=
  { m with meshes := m.meshes.map (applyTransformMesh a) }

/-- Live mutation of `transformObject`: update every mesh of the first live
model whose id matches. -/
def transformObjectLive (a : TransformObjectArgs) (r : RendererState) : RendererState :=
  let ms := updateFirst (fun m => m.id == a.component_id) (transformModel a) r.models
  { r with models := ms }

/-- The `transformObject` branch: document update (with persistence snapshot
taken whenever the document exists), then live update. -/
def transformObjectCall (a : TransformObjectArgs) (e : Editor) :
    Editor × Option SavedState :=
  let docStep : Option SavedState × Option SavedState :=
    match e.saved_state with
    | some s =>
      let s2 := transformObjectDoc a s
      (some s2, some s2)
    | none => (none, none)
  let rs : Option RendererState :=
    match e.renderer_state with
    | some r => some (transformObjectLive a r)
    | none => none
  ({ saved_state := docStep.1, renderer_state := rs }, docStep.2)

/-- Field-wise water-config update of the `configureWater` branch: every
argument field present overwrites the matching config field (colour
triples are widened to RGBA with alpha `1.0`), absent fields keep their
current value. -/
def applyWaterArgs (a : ConfigureWaterArgs) (c : WaterConfig) : WaterConfig :=
  { shallow_color := (match a.shallow_color with | some col => (col.1, col.2.1, col.2.2, 1) | none => c.shallow_color),
    medium_color := (match a.medium_color with | some col => (col.1, col.2.1, col.2.2, 1) | none => c.medium_color),
    deep_color := (match a.deep_color with | some col => (col.1, col.2.1, col.2.2, 1) | none => c.deep_color),
    ripple_amplitude_multiplier := (match a.ripple_amplitude_multiplier with | some v => v | none => c.ripple_amplitude_multiplier),
    ripple_freq := (match a.ripple_freq with | some v => v | none => c.ripple_freq),
    ripple_speed := (match a.ripple_speed with | some v => v | none => c.ripple_speed),
    shoreline_foam_range := (match a.shoreline_foam_range with | some v => v | none => c.shoreline_foam_range),
    crest_foam_min := (match a.crest_foam_min with | some v => v | none => c.crest_foam_min),
    crest_foam_max := (match a.crest_foam_max with | some v => v | none => c.crest_foam_max),
    sparkle_intensity := (match a.sparkle_intensity with | some v => v | none => c.sparkle_intensity),
    sparkle_threshold := (match a.sparkle_threshold with | some v => v | none => c.sparkle_threshold),
    subsurface_multiplier := (match a.subsurface_multiplier with | some v => v | none => c.subsurface_multiplier),
    fresnel_power := (match a.fresnel_power with | some v => v | none => c.fresnel_power),
    fresnel_multiplier := (match a.fresnel_multiplier with | some v => v | none => c.fresnel_multiplier),
    wave1_amplitude := (match a.wave1_amplitude with | some v => v | none => c.wave1_amplitude),
    wave1_frequency := (match a.wave1_frequency with | some v => v | none => c.wave1_frequency),
    wave1_speed := (match a.wave1_speed with | some v => v | none => c.wave1_speed),
    wave1_steepness := (match a.wave1_steepness with | some v => v | none => c.wave1_steepness),
    wave1_direction := (match a.wave1_direction with | some v => v | none => c.wave1_direction),
    wave2_amplitude := (match a.wave2_amplitude with | some v => v | none => c.wave2_amplitude),
    wave2_frequency := (match a.wave2_frequency with | some v => v | none => c.wave2_frequency),
    wave2_speed := (match a.wave2_speed with | some v => v | none => c.wave2_speed),
    wave2_steepness := (match a.wave2_steepness with | some v => v | none => c.wave2_steepness),
    wave2_direction := (match a.wave2_direction with | some v => v | none => c.wave2_direction),
    wave3_amplitude := (match a.wave3_amplitude with | some v => v | none => c.wave3_amplitude),
    wave3_frequency := (match a.wave3_frequency with | some v => v | none => c.wave3_frequency),
    wave3_speed := (match a.wave3_speed with | some v => v | none => c.wave3_speed),
    wave3_steepness := (match a.wave3_steepness with | some v => v | none => c.wave3_steepness),
    wave3_direction := (match a.wave3_direction with | some v => v | none => c.wave3_direction) }

/-- The `configureWater` branch: live-only — create a default water plane when
none exists and a landscape is present, then reconfigure the first water
plane; the persistence snapshot (of the untouched document) is taken only
when a water plane was configured. -/
def configureWaterCall (a : ConfigureWaterArgs) (e : Editor) :
    Editor × Option SavedState :=
  match e.renderer_state with
  | none => (e, none)
  | some r =>
    let r :=
      if r.water_planes.isEmpty && !r.landscapes.isEmpty then
        { r with water_planes := r.water_planes ++ [{ config := WaterConfig.default }] }
      else r
    match r.water_planes with
    | [] => ({ e with renderer_state := some r }, none)
    | w :: ws =>
      let w2 : WaterPlane := { config := applyWaterArgs a w.config }
      ({ e with renderer_state := some { r with water_planes := w2 :: ws } },
       e.saved_state)

/-- Field-wise sky update of the `configureSky` branch. -/
def applySkyArgs (a : ConfigureSkyArgs) (sk : ProceduralSkyConfig) :
    ProceduralSkyConfig :=
  let sk := match a.horizon_color with
    | some v => { sk with horizon_color := v }
    | none => sk
  let sk := match a.zenith_color with
    | some v => { sk with zenith_color := v }
    | none => sk
  let sk := match a.sun_direction with
    | some v => { sk with sun_direction := v }
    | none => sk
  let sk := match a.sun_color with
    | some v => { sk with sun_color := v }
    | none => sk
  let sk := match a.sun_intensity with
    | some v => { sk with sun_intensity := v }
    | none => sk
  sk

/-- The `configureSky` branch: document-only — install a default sky block on
the first level when absent, then update the fields present; snapshot taken
whenever the document exists. -/
def configureSkyCall (a : ConfigureSkyArgs) (e : Editor) :
    Editor × Option SavedState :=
  match e.saved_state with
  | none => (e, none)
  | some s =>
    let s2 := modifyLevel0
      (fun l =>
        let sky2 := applySkyArgs a (l.procedural_sky.getD ProceduralSkyConfig.default)
        { l with procedural_sky := some sky2 })
      s
    ({ e with saved_state := some s2 }, some s2)

/-- Field-wise tree-property update of the `configureTrees` branch. -/
def applyTreeArgs (a : ConfigureTreesArgs) (p : ProceduralTreeProperties) :
    ProceduralTreeProperties :=
  { seed := (match a.seed with | some v => v | none => p.seed),
    trunk_height := (match a.trunk_height with | some v => v | none => p.trunk_height),
    trunk_radius := (match a.trunk_radius with | some v => v | none => p.trunk_radius),
    branch_levels := (match a.branch_levels with | some v => v | none => p.branch_levels),
    foliage_radius := (match a.foliage_radius with | some v => v | none => p.foliage_radius) }

/-- Does a component satisfy the `configureTrees` search: `ProceduralTree`
kind and, when a target id was supplied, that id? -/
def treeMatch (a : ConfigureTreesArgs) (c : ComponentData) : Bool :=
  treeKind c &&
    (match a.component_id with
     | none => true
     | some t => c.id == t)

/-- The tree properties created when `configureTrees` finds no matching
component and no id was targeted (argument fields over the stated defaults). -/
def newTreeProps (a : ConfigureTreesArgs) : ProceduralTreeProperties :=
  { seed := a.seed.getD 0, trunk_height := a.trunk_height.getD (7 / 2),
    trunk_radius := a.trunk_radius.getD (1 / 4),
    branch_levels := a.branch_levels.getD 4,
    foliage_radius := a.foliage_radius.getD (1 / 2) }

/-- The fresh `ProceduralTree` component appended by `configureTrees`. -/
def newTreeComponent (fresh : String) (p : ProceduralTreeProperties) : ComponentData :=
  { ComponentData.default with
    id := fresh,
    kind := some ComponentKind.ProceduralTree,
    asset_id := "",
    procedural_tree_properties := some p }

/-- Update a matched tree component: install the default block when absent,
then overwrite the fields present in the argument. -/
def updateTreeComponent (a : ConfigureTreesArgs) (c : ComponentData) : ComponentData :=
  let p := applyTreeArgs a (c.procedural_tree_properties.getD ProceduralTreeProperties.default)
  { c with procedural_tree_properties := some p }

/-- Document mutation of `configureTrees` on a components collection: the
loop updates the first matching tree component and breaks; when none matches
and no id was targeted, a fresh component is appended.  Returns the new
collection and the properties handed to the live systems (`new_tree_props`). -/
def configureTreesDoc (a : ConfigureTreesArgs) (fresh : String)
    (cs : List ComponentData) :
    List ComponentData × Option ProceduralTreeProperties :=
  match cs.find? (fun c => treeMatch a c) with
  | some c =>
    (updateFirst (treeMatch a) (updateTreeComponent a) cs,
     some (applyTreeArgs a (c.procedural_tree_properties.getD ProceduralTreeProperties.default)))
  | none =>
    if a.component_id.isNone then
      let p := newTreeProps a
      (cs ++ [newTreeComponent fresh p], some p)
    else (cs, none)

/-- The `configureTrees` branch: document find-or-create, snapshot whenever
the document exists, then regeneration of every live tree system with the
resulting properties. -/
def configureTreesCall (a : ConfigureTreesArgs) (fresh : String) (e : Editor) :
    Editor × Option SavedState :=
  let docStep : Option SavedState × Option ProceduralTreeProperties × Option SavedState :=
    match e.saved_state with
    | none => (none, none, none)
    | some s =>
      match s.levels with
      | some (l :: ls) =>
        match l.components with
        | some cs =>
          let r := configureTreesDoc a fresh cs
          let s2 : SavedState := { s with levels := some ({ l with components := some r.1 } :: ls) }
          (some s2, r.2, some s2)
        | none => (some s, none, some s)
      | _ => (some s, none, some s)
  let rs : Option RendererState :=
    match e.renderer_state, docStep.2.1 with
    | some r, some p =>
      some { r with procedural_trees := r.procedural_trees.map (fun _t => { props := p }) }
    | r, _ => r
  ({ saved_state := docStep.1, renderer_state := rs }, docStep.2.2)

/-- The fresh `Model` component appended by a successful `spawnModel`. -/
def newModelComponent (fresh : String) (assetId : String) (pos rot scl : Vec3) :
    ComponentData :=
  { ComponentData.default with
    id := fresh,
    kind := some ComponentKind.Model,
    asset_id := assetId,
    generic_properties := { name := "New Model", position := pos, rotation := rot, scale := scl } }

/-- The `spawnModel` branch: resolve the asset file name (no-op when it does
not resolve); with the asset resolved the source unwraps the renderer state,
so an absent renderer state panics — the branch result `none` — and nothing
further happens; otherwise the live model is constructed via the rendering
backend under the fresh component id (`handle_add_model`, modelled from the
spec as inserting one live object keyed by that id), the document record is
appended and the persistence snapshot taken. -/
def spawnModelCall (a : SpawnModelArgs) (fresh : String) (e : Editor) :
    Option (Editor × Option SavedState) :=
  let fileName :=
    match e.saved_state with
    | some s => resolveModel s.models a.asset_id
    | none => ""
  if fileName == "" then some (e, none)
  else
    match e.renderer_state with
    | none => none
    | some r =>
      let pos := a.position.getD (0, 0, 0)
      let rot := a.rotation.getD (0, 0, 0)
      let scl := a.scale.getD (1, 1, 1)
      let lm : LiveModel :=
        { id := fresh,
          meshes := [{ transform := { position := pos, rotation := rot, scale := scl } }] }
      let r2 : RendererState := { r with models := r.models ++ [lm] }
      let docStep : Option SavedState × Option SavedState :=
        match e.saved_state with
        | some s =>
          let s2 := modifyLevel0 (pushComponent (newModelComponent fresh a.asset_id pos rot scl)) s
          (some s2, some s2)
        | none => (none, none)
      some ({ saved_state := docStep.1, renderer_state := some r2 }, docStep.2)

/-- The fresh `PointLight` component appended by `spawnPointLight` (rotation
and scale come from the engine-side generic defaults; the light block keeps
colour as RGBA with alpha `1.0` and the intensity; the radius only reaches
the live light as `max_distance`). -/
def newPointLightComponent (fresh : String) (pos : Vec3) (color : Vec3)
    (intensity : Rat) : ComponentData :=
  { ComponentData.default with
    id := fresh,
    kind := some ComponentKind.PointLight,
    asset_id := "",
    generic_properties := { GenericProperties.default with name := "New Light", position := pos },
    light_properties := some { color := (color.1, color.2.1, color.2.2, 1), intensity := intensity } }

/-- The `spawnPointLight` branch: push the live light record (which carries
no id), then append the document record under the fresh id and snapshot. -/
def spawnPointLightCall (a : SpawnPointLightArgs) (fresh : String) (e : Editor) :
    Editor × Option SavedState :=
  let color := a.color.getD (1, 1, 1)
  let intensity := a.intensity.getD 1
  let radius := a.radius.getD 10
  let rs : Option RendererState :=
    match e.renderer_state with
    | some r =>
      let pl : PointLight :=
        { position := a.position, color := color, intensity := intensity,
          max_distance := radius }
      some { r with point_lights := r.point_lights ++ [pl] }
    | none => none
  let docStep : Option SavedState × Option SavedState :=
    match e.saved_state with
    | some s =>
      let s2 := modifyLevel0
        (pushComponent (newPointLightComponent fresh a.position color intensity)) s
      (some s2, some s2)
    | none => (none, none)
  ({ saved_state := docStep.1, renderer_state := rs }, docStep.2)

/-- The fresh `Collectable` component appended by a successful
`spawnCollectable`: the collectable block reuses the component id as its
model part id and links the first stat template. -/
def newCollectableComponent (fresh : String) (assetId : String)
    (pos rot scl : Vec3) (props : CollectableProperties) : ComponentData :=
  { ComponentData.default with
    id := fresh,
    kind := some ComponentKind.Collectable,
    asset_id := assetId,
    generic_properties := { name := "New Collectable", position := pos, rotation := rot, scale := scl },
    collectable_properties := some props }

/-- The `spawnCollectable` branch: resolve the asset file name and the first
stat template — both must exist or the command is a no-op; once both are
present the source unwraps the renderer state, so an absent renderer state
panics — the branch result `none` — before any document mutation; otherwise
the live collectable is constructed under the fresh id
(`handle_add_collectable`, modelled from the spec), the document record
appended and the snapshot taken. -/
def spawnCollectableCall (a : SpawnCollectableArgs) (fresh : String) (e : Editor) :
    Option (Editor × Option SavedState) :=
  let fileName :=
    match e.saved_state with
    | some s => resolveModel s.models a.asset_id
    | none => ""
  let statData : Option Stat :=
    match e.saved_state with
    | some s => firstStat s
    | none => none
  match statData with
  | none => some (e, none)
  | some st =>
    if fileName == "" then some (e, none)
    else
      match e.renderer_state with
      | none => none
      | some r =>
        let pos := a.position.getD (0, 0, 0)
        let rot := a.rotation.getD (0, 0, 0)
        let scl := a.scale.getD (1, 1, 1)
        let props : CollectableProperties :=
          { model_id := some fresh,
            collectable_type := some (parseCollectableType a.type),
            stat_id := some st.id }
        let r2 : RendererState :=
          { r with collectables := r.collectables ++ [{ id := fresh }] }
        let docStep : Option SavedState × Option SavedState :=
          match e.saved_state with
          | some s =>
            let s2 := modifyLevel0
              (pushComponent (newCollectableComponent fresh a.asset_id pos rot scl props)) s
            (some s2, some s2)
          | none => (none, none)
        some ({ saved_state := docStep.1, renderer_state := some r2 }, docStep.2)

/-- Field-wise live grass-config update of the `configureGrass` branch
(applied to every live grass system; `blade_density` stays an `f32` live). -/
def applyGrassArgsLive (a : ConfigureGrassArgs) (g : GrassLiveConfig) :
    GrassLiveConfig :=
  { wind_strength := (match a.wind_strength with | some v => v | none => g.wind_strength),
    wind_speed := (match a.wind_speed with | some v => v | none => g.wind_speed),
    blade_height := (match a.blade_height with | some v => v | none => g.blade_height),
    blade_width := (match a.blade_width with | some v => v | none => g.blade_width),
    blade_density := (match a.blade_density with | some v => v | none => g.blade_density),
    render_distance := (match a.render_distance with | some v => v | none => g.render_distance) }

/-- Field-wise document grass-property update of the `configureGrass` branch
(`blade_density` is cast `as u32`; untouched fields, including `grid_size`
and `brownian_strength`, keep their current value). -/
def applyGrassArgsDoc (a : ConfigureGrassArgs) (p : ProceduralGrassProperties) :
    ProceduralGrassProperties :=
  { wind_strength := (match a.wind_strength with | some v => v | none => p.wind_strength),
    wind_speed := (match a.wind_speed with | some v => v | none => p.wind_speed),
    blade_height := (match a.blade_height with | some v => v | none => p.blade_height),
    blade_width := (match a.blade_width with | some v => v | none => p.blade_width),
    blade_density := (match a.blade_density with | some v => ratToU32 v | none => p.blade_density),
    render_distance := (match a.render_distance with | some v => v | none => p.render_distance),
    grid_size := p.grid_size,
    brownian_strength := p.brownian_strength }

/-- Does a component satisfy the `configureGrass` search: `ProceduralGrass`
kind and, when a target id was supplied, that id? -/
def grassMatch (a : ConfigureGrassArgs) (c : ComponentData) : Bool :=
  grassKind c &&
    (match a.component_id with
     | none => true
     | some t => c.id == t)

/-- Update a matched grass component: install the default block when absent,
then overwrite the fields present in the argument; other components are
left alone.  (The source loop carries no `break`, so every matching grass
component is updated.) -/
def updateGrassComponent (a : ConfigureGrassArgs) (c : ComponentData) : ComponentData :=
  if grassMatch a c then
    let p := applyGrassArgsDoc a (c.procedural_grass_properties.getD ProceduralGrassProperties.default)
    { c with procedural_grass_properties := some p }
  else c

/-- The grass properties created when `configureGrass` finds no matching
component and no id was targeted (argument fields over the stated defaults;
the density argument is cast `as u32`). -/
def newGrassProps (a : ConfigureGrassArgs) : ProceduralGrassProperties :=
  { wind_strength := a.wind_strength.getD (5 / 2),
    wind_speed := a.wind_speed.getD (3 / 10),
    blade_height := a.blade_height.getD (11 / 4),
    blade_width := a.blade_width.getD (3 / 100),
    blade_density := ratToU32 (a.blade_density.getD 15),
    render_distance := a.render_distance.getD 150,
    grid_size := 10,
    brownian_strength := 1 / 2 }

/-- The fresh `ProceduralGrass` component appended by `configureGrass`. -/
def newGrassComponent (fresh : String) (p : ProceduralGrassProperties) : ComponentData :=
  { ComponentData.default with
    id := fresh,
    kind := some ComponentKind.ProceduralGrass,
    asset_id := "",
    procedural_grass_properties := some p }

/-- Document mutation of `configureGrass` on a components collection: every
matching grass component is updated; when none matched and no id was
targeted, a fresh component is appended. -/
def configureGrassDocComps (a : ConfigureGrassArgs) (fresh : String)
    (cs : List ComponentData) : List ComponentData :=
  let cs2 := cs.map (updateGrassComponent a)
  if cs.any (fun c => grassMatch a c) || a.component_id.isSome then cs2
  else cs2 ++ [newGrassComponent fresh (newGrassProps a)]

/-- The per-level document mutation of `configureGrass` (no-op when the
level has no component collection). -/
def configureGrassLevel (a : ConfigureGrassArgs) (fresh : String) (l : Level) :
    Level :=
  match l.components with
  | some cs => { l with components := some (configureGrassDocComps a fresh cs) }
  | none => l

/-- The `configureGrass` branch: live update of every grass system first,
then the document find-or-create; snapshot whenever the document exists. -/
def configureGrassCall (a : ConfigureGrassArgs) (fresh : String) (e : Editor) :
    Editor × Option SavedState :=
  let rs : Option RendererState :=
    match e.renderer_state with
    | some r =>
      some { r with grasses := r.grasses.map (fun g => { config := applyGrassArgsLive a g.config }) }
    | none => none
  let docStep : Option SavedState × Option SavedState :=
    match e.saved_state with
    | some s =>
      let s2 := modifyLevel0 (configureGrassLevel a fresh) s
      (some s2, some s2)
    | none => (none, none)
  ({ saved_state := docStep.1, renderer_state := rs }, docStep.2)

/-- The `spawnPrimitive` branch: with no renderer state the branch returns
early with the failure acknowledgement (`return "{\"success\": false}"`);
otherwise a cube or sphere is constructed, positioned and optionally scaled,
an unknown primitive type only logs, and the (unchanged) document is
snapshotted whenever it exists.  The returned flag is the success of the
acknowledgement. -/
def spawnPrimitiveCall (a : SpawnPrimitiveArgs) (e : Editor) :
    Editor × Option SavedState × Bool :=
  match e.renderer_state with
  | none => (e, none, false)
  | some r =>
    let prim : Primitive :=
      let t := { Transform.default with position := a.position }
      let t := match a.scale with
        | some v => { t with scale := v }
        | none => t
      { transform := t }
    let r2 : RendererState :=
      if a.type == "Cube" then { r with cubes := r.cubes ++ [prim] }
      else if a.type == "Sphere" then { r with spheres := r.spheres ++ [prim] }
      else r
    ({ e with renderer_state := some r2 }, e.saved_state, true)

/-- The fresh `NPC` component appended by a successful `spawnNPC` (its NPC
block stores the asset id as the model id together with the behaviour). -/
def newNPCComponent (fresh : String) (assetId : String) (pos rot scl : Vec3)
    (behavior : BehaviorConfig) : ComponentData :=
  { ComponentData.default with
    id := fresh,
    kind := some ComponentKind.NPC,
    asset_id := assetId,
    generic_properties := { name := "New NPC", position := pos, rotation := rot, scale := scl },
    npc_properties := some { model_id := assetId, behavior := behavior } }

/-- The behaviour configuration built by `spawnNPC`: melee gets range `2.0`,
ranged gets `15.0`; the attack stats land on the side matching the combat
type. -/
def npcBehavior (a : SpawnNPCArgs) : BehaviorConfig :=
  let combat := parseCombatType a.combat_type
  let atk : AttackStats :=
    { damage := a.damage.getD 10,
      range := if combat = CombatType.Melee then 2 else 15,
      cooldown := 3 / 2, wind_up_time := 1 / 2, recovery_time := 1 / 2 }
  { aggressiveness := a.aggressiveness.getD (1 / 2),
    combat_type := combat,
    wander_radius := a.wander_radius.getD 10,
    wander_speed := a.wander_speed.getD 2,
    detection_radius := a.detection_radius.getD 15,
    melee_stats := if combat = CombatType.Melee then some atk else none,
    ranged_stats := if combat = CombatType.Ranged then some atk else none }

/-- The `spawnNPC` branch: resolve the asset file name (no-op when it does
not resolve); with the asset resolved the source unwraps the renderer state,
so an absent renderer state panics — the branch result `none`; otherwise the
live NPC is constructed under the fresh id (`handle_add_npc`, modelled from
the spec), the document record appended and the snapshot taken. -/
def spawnNPCCall (a : SpawnNPCArgs) (fresh : String) (e : Editor) :
    Option (Editor × Option SavedState) :=
  let fileName :=
    match e.saved_state with
    | some s => resolveModel s.models a.asset_id
    | none => ""
  if fileName == "" then some (e, none)
  else
    match e.renderer_state with
    | none => none
    | some r =>
      let pos := a.position.getD (0, 0, 0)
      let rot := a.rotation.getD (0, 0, 0)
      let scl := a.scale.getD (1, 1, 1)
      let r2 : RendererState := { r with npcs := r.npcs ++ [{ id := fresh }] }
      let docStep : Option SavedState × Option SavedState :=
        match e.saved_state with
        | some s =>
          let s2 := modifyLevel0
            (pushComponent (newNPCComponent fresh a.asset_id pos rot scl (npcBehavior a))) s
          (some s2, some s2)
        | none => (none, none)
      some ({ saved_state := docStep.1, renderer_state := some r2 }, docStep.2)

/-- The body shipped to the external `save-script` endpoint. -/
structure ScriptPost where
  projectPath : String
  filename : String
  content : String

/-- The `saveScript` branch: when a component id is supplied and the editor
exists, the matching component's script path is set to
`scripts/<filename>` and the document snapshotted; independently, the
script body is posted to the external boundary whenever the project path is
non-empty. -/
def saveScriptCall (a : SaveScriptArgs) (projectPath : String)
    (ed : Option Editor) :
    Option Editor × Option SavedState × Option ScriptPost :=
  let docStep : Option Editor × Option SavedState :=
    match a.componentId, ed with
    | some cid, some e =>
      match e.saved_state with
      | some s =>
        let s2 := modifyLevel0
          (fun l =>
            match l.components with
            | some cs =>
              let cs2 := updateFirst (fun c => c.id == cid)
                (fun c => { c with rhai_script_path := some ("scripts/" ++ a.filename) }) cs
              { l with components := some cs2 }
            | none => l)
          s
        (some { e with saved_state := some s2 }, some s2)
      | none => (some e, none)
    | _, _ => (ed, none)
  let post : Option ScriptPost :=
    if projectPath == "" then none
    else some { projectPath := projectPath, filename := a.filename, content := a.content }
  (docStep.1, docStep.2, post)

/-- The multipart body shipped to the external `save-heightmap` endpoint
(project path, landscape asset id, target file name; the PNG payload itself
comes from the external generator and is not modelled). -/
structure HeightmapUpload where
  projectPath : String
  landscapeAssetId : String
  filename : String

/-- The component `generateHeightmap` starts from: the one with the targeted
id when an id was given, else the first `Landscape` kind component of the
first level. -/
def existingComp (a : GenerateHeightmapArgs) (s : SavedState) :
    Option ComponentData :=
  match s.levels with
  | some (l :: _) =>
    match l.components with
    | some cs =>
      match a.component_id with
      | some tid => cs.find? (fun c => c.id == tid)
      | none => cs.find? (fun c => landscapeKind c)
    | none => none
  | _ => none

/-- The landscape info `generateHeightmap` reuses: the position and asset id
of the component found by `existingComp`, provided that asset id resolves to
a landscape catalog entry that carries a heightmap file; the file name is
that entry's. -/
def existingInfo (a : GenerateHeightmapArgs) (e : Editor) :
    Option (Vec3 × String × String) :=
  match e.saved_state with
  | none => none
  | some s =>
    match existingComp a s with
    | none => none
    | some c =>
      match s.landscapes with
      | none => none
      | some ls =>
        match ls.find? (fun l => l.id == c.asset_id) with
        | none => none
        | some ld =>
          match ld.heightmap with
          | none => none
          | some f => some (c.generic_properties.position, c.asset_id, f.fileName)

/-- The `generateHeightmap` branch: reuse the existing landscape info when
present, otherwise synthesize a fresh asset id and file name; run the
external generator (its heightfield is not dispatcher-visible state);
schedule the file upload when the project path is non-empty (the generated
PNG bytes are never empty); then clear the live landscape and terrain
collections and add the single generated landscape at the chosen position.
The document itself is never mutated; it is snapshotted for persistence
whenever renderer and document both exist. -/
def generateHeightmapCall (a : GenerateHeightmapArgs) (fresh1 fresh2 : String)
    (projectPath : String) (e : Editor) :
    Editor × Option SavedState × Option HeightmapUpload :=
  let info :=
    (existingInfo a e).getD ((0, 0, 0), fresh1, "heightmap_" ++ fresh2 ++ ".png")
  let upload : Option HeightmapUpload :=
    if projectPath == "" then none
    else some { projectPath := projectPath, landscapeAssetId := info.2.1, filename := info.2.2 }
  match e.renderer_state with
  | none => (e, none, upload)
  | some r =>
    let r2 : RendererState :=
      { r with landscapes := [{ id := "generated_landscape", position := info.1 }],
               terrain_managers := [] }
    ({ e with renderer_state := some r2 }, e.saved_state, upload)

/-! ### The dispatcher -/

/-- The fixed success acknowledgement string returned by `execute_tool_call`. -/
def successResponse : String := "\x7b\"success\": true\x7d"

/-- The failure acknowledgement string of the `spawnPrimitive` early return. -/
def failureResponse : String := "\x7b\"success\": false\x7d"

/-- Everything a dispatched command produces: the editor state, the document
snapshot handed to the fire-and-forget persistence scheduler (`save_project`
is invoked exactly when this is `some`), the scheduled external uploads,
and the acknowledgement string returned to the caller. -/
structure ToolResult where
  editor : Option Editor
  save : Option SavedState
  upload : Option HeightmapUpload
  script : Option ScriptPost
  response : String

/-- The result of a command that fell through without touching anything. -/
def noOpResult (ed : Option Editor) : ToolResult :=
  { editor := ed, save := none, upload := none, script := none,
    response := successResponse }

/-- `execute_tool_call` of `app.rs`: dispatch on the command name; a payload
that fails to decode (modelled as `args = none`), an absent pipeline/editor
(`ed = none`) or an unknown name all fall through as no-ops.  The outcome is
`none` when the invocation panics (the spawn branches' unwrap of an absent
renderer state) and so returns nothing at all.  `fresh1` and `fresh2` stand
for the outputs of `Uuid::new_v4`, modelled from the spec as externally
supplied fresh identifiers; `projectPath` is the selected project's path. -/
def execute_tool_call (cmd : Cmd) (fresh1 fresh2 projectPath : String)
    (ed : Option Editor) : Option ToolResult :=
  match cmd with
  | Cmd.transformObject args =>
    match args, ed with
    | some a, some e =>
      let r := transformObjectCall a e
      some { editor := some r.1, save := r.2, upload := none, script := none,
              response := successResponse }
    | _, _ => some (noOpResult ed)
  | Cmd.configureWater args =>
    match args, ed with
    | some a, some e =>
      let r := configureWaterCall a e
      some { editor := some r.1, save := r.2, upload := none, script := none,
              response := successResponse }
    | _, _ => some (noOpResult ed)
  | Cmd.configureSky args =>
    match args, ed with
    | some a, some e =>
      let r := configureSkyCall a e
      some { editor := some r.1, save := r.2, upload := none, script := none,
              response := successResponse }
    | _, _ => some (noOpResult ed)
  | Cmd.configureTrees args =>
    match args, ed with
    | some a, some e =>
      let r := configureTreesCall a fresh1 e
      some { editor := some r.1, save := r.2, upload := none, script := none,
              response := successResponse }
    | _, _ => some (noOpResult ed)
  | Cmd.spawnModel args =>
    match args, ed with
    | some a, some e =>
      match spawnModelCall a fresh1 e with
      | none => none
      | some r =>
        some { editor := some r.1, save := r.2, upload := none, script := none,
                response := successResponse }
    | _, _ => some (noOpResult ed)
  | Cmd.spawnPointLight args =>
    match args, ed with
    | some a, some e =>
      let r := spawnPointLightCall a fresh1 e
      some { editor := some r.1, save := r.2, upload := none, script := none,
              response := successResponse }
    | _, _ => some (noOpResult ed)
  | Cmd.spawnCollectable args =>
    match args, ed with
    | some a, some e =>
      match spawnCollectableCall a fresh1 e with
      | none => none
      | some r =>
        some { editor := some r.1, save := r.2, upload := none, script := none,
                response := successResponse }
    | _, _ => some (noOpResult ed)
  | Cmd.configureGrass args =>
    match args, ed with
    | some a, some e =>
      let r := configureGrassCall a fresh1 e
      some { editor := some r.1, save := r.2, upload := none, script := none,
              response := successResponse }
    | _, _ => some (noOpResult ed)
  | Cmd.spawnPrimitive args =>
    match args, ed with
    | some a, some e =>
      let r := spawnPrimitiveCall a e
      some { editor := some r.1, save := r.2.1, upload := none, script := none,
             response := if r.2.2 then successResponse else failureResponse }
    | _, _ => some (noOpResult ed)
  | Cmd.spawnNPC args =>
    match args, ed with
    | some a, some e =>
      match spawnNPCCall a fresh1 e with
      | none => none
      | some r =>
        some { editor := some r.1, save := r.2, upload := none, script := none,
                response := successResponse }
    | _, _ => some (noOpResult ed)
  | Cmd.saveScript args =>
    match args with
    | some a =>
      let r := saveScriptCall a projectPath ed
      some { editor := r.1, save := r.2.1, upload := none, script := r.2.2,
             response := successResponse }
    | none => some (noOpResult ed)
  | Cmd.generateHeightmap args =>
    match args, ed with
    | some a, some e =>
      let r := generateHeightmapCall a fresh1 fresh2 projectPath e
      some { editor := some r.1, save := r.2.1, upload := r.2.2, script := none,
             response := successResponse }
    | _, _ => some (noOpResult ed)
  | Cmd.unknown _ => some (noOpResult ed)


/-! ### Observers over dispatch results -/

/-- The document held by an optional editor. -/
def savedOf (ed : Option Editor) : Option SavedState :=
  match ed with
  | some e => e.saved_state
  | none => none

/-- The renderer state held by an optional editor. -/
def rendererOf (ed : Option Editor) : Option RendererState :=
  match ed with
  | some e => e.renderer_state
  | none => none

/-- The component collection of the document's first level (empty when any
layer is absent). -/
def docComponents (ed : Option Editor) : List ComponentData :=
  match savedOf ed with
  | some s =>
    match s.levels with
    | some (l :: _) => l.components.getD []
    | _ => []
  | none => []

/-- The grass components of the document's first level. -/
def grassComponents (ed : Option Editor) : List ComponentData :=
  (docComponents ed).filter (fun c => grassKind c)

/-- The ids of the live models. -/
def liveModelIds (ed : Option Editor) : List String :=
  match rendererOf ed with
  | some r => r.models.map (fun m => m.id)
  | none => []

/-- The ids of the live NPCs. -/
def liveNPCIds (ed : Option Editor) : List String :=
  match rendererOf ed with
  | some r => r.npcs.map (fun n => n.id)
  | none => []

/-- The ids of the live collectables. -/
def liveCollectableIds (ed : Option Editor) : List String :=
  match rendererOf ed with
  | some r => r.collectables.map (fun c => c.id)
  | none => []

/-- The live point lights. -/
def livePointLights (ed : Option Editor) : List PointLight :=
  match rendererOf ed with
  | some r => r.point_lights
  | none => []

/-- The live cubes. -/
def liveCubes (ed : Option Editor) : List Primitive :=
  match rendererOf ed with
  | some r => r.cubes
  | none => []

/-- The live landscapes. -/
def liveLandscapes (ed : Option Editor) : List LiveLandscape :=
  match rendererOf ed with
  | some r => r.landscapes
  | none => []

/-- Did the payload of this command fail to decode? -/
def decodeFailed : Cmd → Bool
  | Cmd.transformObject none => true
  | Cmd.configureWater none => true
  | Cmd.configureSky none => true
  | Cmd.configureTrees none => true
  | Cmd.spawnModel none => true
  | Cmd.spawnPointLight none => true
  | Cmd.spawnCollectable none => true
  | Cmd.configureGrass none => true
  | Cmd.spawnPrimitive none => true
  | Cmd.spawnNPC none => true
  | Cmd.saveScript none => true
  | Cmd.generateHeightmap none => true
  | _ => false

/-- Is this invocation the one early return of the dispatcher: a decoded
`spawnPrimitive` on an editor without renderer state? -/
def primitiveEarlyReturn : Cmd → Option Editor → Bool
  | Cmd.spawnPrimitive (some _), some e => e.renderer_state.isNone
  | _, _ => false

/-- Does this invocation hit the spawn branches' unwrap of an absent
renderer state — the dispatcher's one panic: a decoded
`spawnModel`/`spawnNPC` whose asset resolves (plus, for `spawnCollectable`,
a first stat template present) reaching an editor without renderer state? -/
def spawnPanics : Cmd → Option Editor → Bool
  | Cmd.spawnModel (some a), some e =>
    !(resolvedFile (some e) a.asset_id == "") && e.renderer_state.isNone
  | Cmd.spawnCollectable (some a), some e =>
    (match e.saved_state with
     | some s => firstStat s
     | none => none).isSome
      && !(resolvedFile (some e) a.asset_id == "") && e.renderer_state.isNone
  | Cmd.spawnNPC (some a), some e =>
    !(resolvedFile (some e) a.asset_id == "") && e.renderer_state.isNone
  | _, _ => false

/-- The editor state after a dispatch outcome (`none` — a panicked
invocation — yields no editor). -/
def editorOf (r : Option ToolResult) : Option Editor :=
  match r with
  | some t => t.editor
  | none => none

/-- The persistence snapshot scheduled by a dispatch outcome. -/
def saveOf (r : Option ToolResult) : Option SavedState :=
  match r with
  | some t => t.save
  | none => none

/-- The heightmap upload scheduled by a dispatch outcome. -/
def uploadOf (r : Option ToolResult) : Option HeightmapUpload :=
  match r with
  | some t => t.upload
  | none => none

/-- The acknowledgement string a dispatch outcome returned to the caller,
when it returned at all. -/
def responseOf (r : Option ToolResult) : Option String :=
  match r with
  | some t => some t.response
  | none => none

/-! ### Example fixtures (concrete states used by witnesses and
counterexamples) -/

/-- An example renderer state with one pre-existing landscape and two
terrain managers. -/
def rsEx : RendererState :=
  { models := [], point_lights := [], water_planes := [],
    landscapes := [{ id := "old", position := (9, 9, 9) }],
    terrain_managers := [(), ()], grasses := [], procedural_trees := [],
    cubes := [], spheres := [], npcs := [], collectables := [] }

/-- An example document: one level with an empty component collection, one
model asset, one stat template, no landscape assets. -/
def ssEx : SavedState :=
  { levels := some [{ components := some [], procedural_sky := none }],
    models := [{ id := "m1", fileName := "chair.glb" }],
    stats := some [{ id := "st1" }], landscapes := none }

/-- An example initialized editor. -/
def edEx : Editor := { saved_state := some ssEx, renderer_state := some rsEx }

/-- Example `spawnPrimitive` arguments. -/
def primArgsEx : SpawnPrimitiveArgs :=
  { type := "Cube", position := (1, 2, 3), scale := none }

/-- Example `generateHeightmap` arguments (seed 7, nothing else). -/
def ghArgsEx : GenerateHeightmapArgs :=
  { component_id := none, seed := some 7, scale := none, persistence := none,
    lacunarity := none, features := none }

/-- An example `Landscape` component at position `(5, 0, 5)` referencing
asset `L1`. -/
def landCompEx : ComponentData :=
  { ComponentData.default with
    id := "c-land",
    kind := some ComponentKind.Landscape,
    asset_id := "L1",
    generic_properties := { GenericProperties.default with position := (5, 0, 5) } }

/-- A document holding the landscape component and a catalog entry for `L1`
with heightmap file `hm.png`. -/
def ssLandEx : SavedState :=
  { levels := some [{ components := some [landCompEx], procedural_sky := none }],
    models := [], stats := none,
    landscapes := some [{ id := "L1", heightmap := some { fileName := "hm.png" } }] }

/-- A document holding the landscape component but no landscape catalog
entry at all (the component's asset id dangles). -/
def ssLandDanglingEx : SavedState :=
  { levels := some [{ components := some [landCompEx], procedural_sky := none }],
    models := [], stats := none, landscapes := none }

/-- A document whose only level has no component collection (`components`
is `None`, as on a freshly minted level). -/
def ssNoCompsEx : SavedState :=
  { levels := some [{ components := none, procedural_sky := none }],
    models := [], stats := none, landscapes := none }

/-- Example first `configureGrass` arguments: wind strength only. -/
def grassArgs1Ex : ConfigureGrassArgs :=
  { component_id := none, wind_strength := some 1, wind_speed := none,
    blade_height := none, blade_width := none, blade_density := none,
    render_distance := none }

/-- Example second `configureGrass` arguments: wind strength, wind speed and
a fractional density. -/
def grassArgs2Ex : ConfigureGrassArgs :=
  { component_id := none, wind_strength := some 4, wind_speed := some 7,
    blade_height := none, blade_width := none, blade_density := some (21 / 2),
    render_distance := none }


/-- The first level of the example document. -/
def lvlEx : Level := { components := some [], procedural_sky := none }

/-- Example `spawnCollectable` arguments resolving to the example catalog. -/
def collArgsEx : SpawnCollectableArgs :=
  { asset_id := "m1", type := "MeleeWeapon", position := none, rotation := none,
    scale := none }

/-- Example `spawnModel` arguments resolving to the example catalog. -/
def modelArgsEx : SpawnModelArgs :=
  { asset_id := "m1", position := some (1, 2, 3), rotation := none, scale := none }

/-! ### Claims -/

/-- C1: for every command whose raw argument payload fails to decode against
that command's schema, dispatch leaves both the scene document and the live
scene state completely unchanged, schedules no persistence write
(`save_project` is not called), and schedules no external upload or script
post either: the whole result is the untouched no-op result. -/
theorem malformed_payload_is_noop (cmd : Cmd) (f1 f2 pp : String)
    (ed : Option Editor) (h : decodeFailed cmd = true) :
    execute_tool_call cmd f1 f2 pp ed = some (noOpResult ed) := by
  cases cmd with
  | transformObject args =>
    cases args with
    | none => cases ed <;> rfl
    | some a => simp [decodeFailed] at h
  | configureWater args =>
    cases args with
    | none => cases ed <;> rfl
    | some a => simp [decodeFailed] at h
  | configureSky args =>
    cases args with
    | none => cases ed <;> rfl
    | some a => simp [decodeFailed] at h
  | configureTrees args =>
    cases args with
    | none => cases ed <;> rfl
    | some a => simp [decodeFailed] at h
  | spawnModel args =>
    cases args with
    | none => cases ed <;> rfl
    | some a => simp [decodeFailed] at h
  | spawnPointLight args =>
    cases args with
    | none => cases ed <;> rfl
    | some a => simp [decodeFailed] at h
  | spawnCollectable args =>
    cases args with
    | none => cases ed <;> rfl
    | some a => simp [decodeFailed] at h
  | configureGrass args =>
    cases args with
    | none => cases ed <;> rfl
    | some a => simp [decodeFailed] at h
  | spawnPrimitive args =>
    cases args with
    | none => cases ed <;> rfl
    | some a => simp [decodeFailed] at h
  | spawnNPC args =>
    cases args with
    | none => cases ed <;> rfl
    | some a => simp [decodeFailed] at h
  | saveScript args =>
    cases args with
    | none => cases ed <;> rfl
    | some a => simp [decodeFailed] at h
  | generateHeightmap args =>
    cases args with
    | none => cases ed <;> rfl
    | some a => simp [decodeFailed] at h
  | unknown n => simp [decodeFailed] at h

/-- Witness for C1: a `transformObject` with an undecodable payload on the
example editor really is dispatched as the untouched no-op result. -/
theorem malformed_payload_is_noop_witness :
    decodeFailed (Cmd.transformObject none) = true ∧
    execute_tool_call (Cmd.transformObject none) "f1" "f2" "proj" (some edEx)
      = some (noOpResult (some edEx)) :=
  ⟨rfl, malformed_payload_is_noop (Cmd.transformObject none) "f1" "f2" "proj"
    (some edEx) rfl⟩

/-- C4 counterexample: a decoded `spawnPrimitive` on an editor without
renderer state returns the failure acknowledgement, which differs from the
fixed success acknowledgement — so not every command invocation returns the
same fixed success payload. -/
theorem fixed_ack_counterexample :
    responseOf (execute_tool_call (Cmd.spawnPrimitive (some primArgsEx)) "f1" "f2" "proj"
        (some { saved_state := some ssEx, renderer_state := none }))
      = some failureResponse ∧
    failureResponse ≠ successResponse :=
  ⟨rfl, by decide⟩

/-- C4 (amended): whenever a command invocation returns at all it returns
the fixed success acknowledgement, except a decoded `spawnPrimitive`
reaching an editor without renderer state, which returns the fixed failure
acknowledgement; and an invocation returns nothing at all — the source
panics at the spawn branches' unwrap of the absent renderer state — exactly
when a decoded `spawnModel`/`spawnCollectable`/`spawnNPC` whose asset (and,
for the collectable, first stat template) resolves reaches an editor
without renderer state. -/
theorem response_fixed_except_primitive_early (cmd : Cmd) (f1 f2 pp : String)
    (ed : Option Editor) :
    responseOf (execute_tool_call cmd f1 f2 pp ed) =
      (if spawnPanics cmd ed then none
       else some (if primitiveEarlyReturn cmd ed then failureResponse
                  else successResponse)) := by
  cases cmd with
  | transformObject args => cases args <;> cases ed <;> rfl
  | configureWater args => cases args <;> cases ed <;> rfl
  | configureSky args => cases args <;> cases ed <;> rfl
  | configureTrees args => cases args <;> cases ed <;> rfl
  | spawnModel args =>
    cases args with
    | none => cases ed <;> rfl
    | some a =>
      cases ed with
      | none => rfl
      | some e =>
        cases e with
        | mk ss rs =>
          cases ss with
          | none => cases rs <;> rfl
          | some s =>
            cases hb : resolveModel s.models a.asset_id == "" <;> cases rs <;>
              simp [execute_tool_call, spawnModelCall, spawnPanics, resolvedFile,
                responseOf, primitiveEarlyReturn, hb]
  | spawnPointLight args => cases args <;> cases ed <;> rfl
  | spawnCollectable args =>
    cases args with
    | none => cases ed <;> rfl
    | some a =>
      cases ed with
      | none => rfl
      | some e =>
        cases e with
        | mk ss rs =>
          cases ss with
          | none => cases rs <;> rfl
          | some s =>
            cases hst : firstStat s <;>
              cases hb : resolveModel s.models a.asset_id == "" <;> cases rs <;>
                simp [execute_tool_call, spawnCollectableCall, spawnPanics,
                  resolvedFile, responseOf, primitiveEarlyReturn, hst, hb]
  | configureGrass args => cases args <;> cases ed <;> rfl
  | spawnPrimitive args =>
    cases args with
    | none => cases ed <;> rfl
    | some a =>
      cases ed with
      | none => rfl
      | some e =>
        cases e with
        | mk ss rs => cases rs <;> rfl
  | spawnNPC args =>
    cases args with
    | none => cases ed <;> rfl
    | some a =>
      cases ed with
      | none => rfl
      | some e =>
        cases e with
        | mk ss rs =>
          cases ss with
          | none => cases rs <;> rfl
          | some s =>
            cases hb : resolveModel s.models a.asset_id == "" <;> cases rs <;>
              simp [execute_tool_call, spawnNPCCall, spawnPanics, resolvedFile,
                responseOf, primitiveEarlyReturn, hb]
  | saveScript args => cases args <;> cases ed <;> rfl
  | generateHeightmap args => cases args <;> cases ed <;> rfl
  | unknown n => cases ed <;> rfl

/-- C8: for every command that requires a catalog asset (`spawnModel`,
`spawnCollectable`, `spawnNPC`), when the asset id does not resolve to a
file name in the document's model catalog the command performs no mutation
at all: the editor is unchanged and no persistence write, upload or script
post is scheduled. -/
theorem unresolved_asset_is_noop (f1 f2 pp : String) (ed : Option Editor) :
    (∀ a : SpawnModelArgs, resolvedFile ed a.asset_id = "" →
      execute_tool_call (Cmd.spawnModel (some a)) f1 f2 pp ed = some (noOpResult ed)) ∧
    (∀ a : SpawnCollectableArgs, resolvedFile ed a.asset_id = "" →
      execute_tool_call (Cmd.spawnCollectable (some a)) f1 f2 pp ed = some (noOpResult ed)) ∧
    (∀ a : SpawnNPCArgs, resolvedFile ed a.asset_id = "" →
      execute_tool_call (Cmd.spawnNPC (some a)) f1 f2 pp ed = some (noOpResult ed)) := by
  refine ⟨fun a h => ?_, fun a h => ?_, fun a h => ?_⟩
  · cases ed with
    | none => rfl
    | some e =>
      cases e with
      | mk ss rs =>
        cases ss with
        | none => rfl
        | some s =>
          have h2 : resolveModel s.models a.asset_id = "" := h
          simp [execute_tool_call, spawnModelCall, h2, noOpResult]
  · cases ed with
    | none => rfl
    | some e =>
      cases e with
      | mk ss rs =>
        cases ss with
        | none => rfl
        | some s =>
          have h2 : resolveModel s.models a.asset_id = "" := h
          cases hst : firstStat s <;>
            simp [execute_tool_call, spawnCollectableCall, h2, hst, noOpResult]
  · cases ed with
    | none => rfl
    | some e =>
      cases e with
      | mk ss rs =>
        cases ss with
        | none => rfl
        | some s =>
          have h2 : resolveModel s.models a.asset_id = "" := h
          simp [execute_tool_call, spawnNPCCall, h2, noOpResult]

/-- Witness for C8: spawning a model whose asset id is absent from the
example catalog really leaves the dispatch result at the untouched no-op. -/
theorem unresolved_asset_is_noop_witness :
    resolvedFile (some edEx) "missing" = "" ∧
    execute_tool_call
        (Cmd.spawnModel
          (some { asset_id := "missing", position := none, rotation := none, scale := none }))
        "u1" "x" "proj" (some edEx)
      = some (noOpResult (some edEx)) :=
  ⟨rfl,
   (unresolved_asset_is_noop "u1" "x" "proj" (some edEx)).1
     { asset_id := "missing", position := none, rotation := none, scale := none } rfl⟩


/-! ### Idempotence of the transform command -/

/-- Updating the first match twice is the same as once, when the updater
preserves the predicate and is idempotent on matches. -/
theorem updateFirst_idem {α : Type} (p : α → Bool) (f : α → α)
    (hp : ∀ x, p x = true → p (f x) = true)
    (hf : ∀ x, p x = true → f (f x) = f x) (xs : List α) :
    updateFirst p f (updateFirst p f xs) = updateFirst p f xs := by
  induction xs with
  | nil => rfl
  | cons x xs ih =>
    cases hx : p x with
    | true => simp [updateFirst, hx, hp x hx, hf x hx]
    | false => simp [updateFirst, hx, ih]

/-- Mapping an idempotent function twice is the same as once. -/
theorem map_idem {α : Type} (g : α → α) (hg : ∀ x, g (g x) = g x)
    (xs : List α) : (xs.map g).map g = xs.map g := by
  induction xs with
  | nil => rfl
  | cons x xs ih => simp [hg, ih]

/-- The transform document update is idempotent on a component. -/
theorem applyTransformArgs_idem (a : TransformObjectArgs) (c : ComponentData) :
    applyTransformArgs a (applyTransformArgs a c) = applyTransformArgs a c := by
  cases c with
  | mk i k aid g lp cp np tp gp sp =>
    cases g with
    | mk nm pos rot scl =>
      cases h1 : a.translation <;> cases h2 : a.rotation <;> cases h3 : a.scale <;>
        simp [applyTransformArgs, h1, h2, h3]

/-- The transform mesh update is idempotent. -/
theorem applyTransformMesh_idem (a : TransformObjectArgs) (m : Mesh) :
    applyTransformMesh a (applyTransformMesh a m) = applyTransformMesh a m := by
  cases m with
  | mk t =>
    cases t with
    | mk pos rot scl =>
      cases h1 : a.translation <;> cases h2 : a.rotation <;> cases h3 : a.scale <;>
        simp [applyTransformMesh, h1, h2, h3]

/-- The per-level transform update is idempotent. -/
theorem transformLevel_idem (a : TransformObjectArgs) (l : Level) :
    transformLevel a (transformLevel a l) = transformLevel a l := by
  cases l with
  | mk comps sky =>
    cases comps with
    | none => rfl
    | some cs =>
      simp [transformLevel,
        updateFirst_idem (fun c => c.id == a.component_id) (applyTransformArgs a)
          (fun x hx => hx) (fun x _hx => applyTransformArgs_idem a x) cs]

/-- The per-model transform update is idempotent. -/
theorem transformModel_idem (a : TransformObjectArgs) (m : LiveModel) :
    transformModel a (transformModel a m) = transformModel a m := by
  cases m with
  | mk i meshes =>
    simp only [transformModel]
    rw [map_idem (applyTransformMesh a) (applyTransformMesh_idem a)]

/-- The whole document transform mutation is idempotent. -/
theorem transformObjectDoc_idem (a : TransformObjectArgs) (s : SavedState) :
    transformObjectDoc a (transformObjectDoc a s) = transformObjectDoc a s := by
  cases s with
  | mk lv mo st la =>
    cases lv with
    | none => rfl
    | some lvls =>
      cases lvls with
      | nil => rfl
      | cons l ls =>
        simp [transformObjectDoc, modifyLevel0, transformLevel_idem a l]

/-- The whole live transform mutation is idempotent. -/
theorem transformObjectLive_idem (a : TransformObjectArgs) (r : RendererState) :
    transformObjectLive a (transformObjectLive a r) = transformObjectLive a r := by
  cases r with
  | mk ms pls wps lands tms gs pts cbs sphs nps cols =>
    simp [transformObjectLive,
      updateFirst_idem (fun m => m.id == a.component_id) (transformModel a)
        (fun x hx => hx) (fun x _hx => transformModel_idem a x) ms]

/-- C9: issuing the same `transformObject` command twice with identical
arguments yields exactly the editor state (document component records and
all live model transforms included) of issuing it once — the second
application changes nothing further. -/
theorem transform_twice_equals_once (a : TransformObjectArgs)
    (f1 f2 g1 g2 pp : String) (ed : Option Editor) :
    (editorOf (execute_tool_call (Cmd.transformObject (some a)) g1 g2 pp
        (editorOf (execute_tool_call (Cmd.transformObject (some a)) f1 f2 pp ed))))
      = (editorOf (execute_tool_call (Cmd.transformObject (some a)) f1 f2 pp ed)) := by
  cases ed with
  | none => rfl
  | some e =>
    cases e with
    | mk ss rs =>
      cases ss <;> cases rs <;>
        simp [execute_tool_call, transformObjectCall, editorOf,
          transformObjectDoc_idem, transformObjectLive_idem]




/-- C10: for a decoded `spawnCollectable` on an initialized editor (renderer
state present — with it absent and asset plus stats resolvable the source
panics before any mutation) whose asset id resolves to a model file: when
the document's stats collection is absent or empty the command performs no
mutation at all (untouched no-op result); otherwise the new collectable
record is appended and its linked stat id is exactly the id of the first
stat in the collection (and a persistence write is scheduled). -/
theorem collectable_stat_linkage (fresh f2 pp : String) (s : SavedState)
    (r : RendererState) (a : SpawnCollectableArgs)
    (hres : resolveModel s.models a.asset_id ≠ "") :
    (s.stats = none ∨ s.stats = some [] →
      execute_tool_call (Cmd.spawnCollectable (some a)) fresh f2 pp
          (some { saved_state := some s, renderer_state := some r })
        = some (noOpResult (some { saved_state := some s, renderer_state := some r }))) ∧
    (∀ st rest l ls cs, s.stats = some (st :: rest) → s.levels = some (l :: ls) →
      l.components = some cs →
      docComponents (editorOf (execute_tool_call (Cmd.spawnCollectable (some a)) fresh f2 pp
          (some { saved_state := some s, renderer_state := some r })))
        = cs ++ [newCollectableComponent fresh a.asset_id
            (a.position.getD (0, 0, 0)) (a.rotation.getD (0, 0, 0))
            (a.scale.getD (1, 1, 1))
            { model_id := some fresh,
              collectable_type := some (parseCollectableType a.type),
              stat_id := some st.id }] ∧
      (saveOf (execute_tool_call (Cmd.spawnCollectable (some a)) fresh f2 pp
          (some { saved_state := some s, renderer_state := some r }))).isSome = true) := by
  constructor
  · intro h
    have hf : firstStat s = none := by
      rcases h with h | h <;> simp [firstStat, h]
    simp [execute_tool_call, spawnCollectableCall, hf, noOpResult]
  · intro st rest l ls cs hst hlev hcs
    have hf : firstStat s = some st := by simp [firstStat, hst]
    constructor
    · simp [execute_tool_call, spawnCollectableCall, hf, hres, editorOf,
        docComponents, savedOf, modifyLevel0, pushComponent, hlev, hcs]
    · simp [execute_tool_call, spawnCollectableCall, hf, hres, hlev, saveOf]

/-- Witness for C10: on the example document (one stat `st1`, resolvable
asset `m1`) the spawned collectable record links stat `st1` and a
persistence write is scheduled. -/
theorem collectable_stat_linkage_witness :
    resolveModel ssEx.models collArgsEx.asset_id ≠ "" ∧
    ssEx.stats = some ({ id := "st1" } :: []) ∧
    (docComponents (editorOf (execute_tool_call (Cmd.spawnCollectable (some collArgsEx)) "u1" "x" "proj"
          (some { saved_state := some ssEx, renderer_state := some rsEx })))
        = [] ++ [newCollectableComponent "u1" collArgsEx.asset_id
            (collArgsEx.position.getD (0, 0, 0)) (collArgsEx.rotation.getD (0, 0, 0))
            (collArgsEx.scale.getD (1, 1, 1))
            { model_id := some "u1",
              collectable_type := some (parseCollectableType collArgsEx.type),
              stat_id := some "st1" }] ∧
      (saveOf (execute_tool_call (Cmd.spawnCollectable (some collArgsEx)) "u1" "x" "proj"
          (some { saved_state := some ssEx, renderer_state := some rsEx }))).isSome = true) :=
  ⟨by decide, rfl,
   (collectable_stat_linkage "u1" "x" "proj" ssEx rsEx collArgsEx (by decide)).2
     { id := "st1" } [] lvlEx [] [] rfl rfl rfl⟩



/-- C2 counterexample: a successful `spawnPrimitive` (success acknowledgement
returned, live cube inserted) generates no component id and appends no
`ComponentRecord` at all — the document components are untouched — so the
claimed fresh-id agreement between a new record and the live object fails
for `spawnPrimitive`. -/
theorem spawn_id_counterexample :
    (responseOf (execute_tool_call (Cmd.spawnPrimitive (some primArgsEx)) "f1" "f2" "proj"
        (some edEx))) = successResponse ∧
    (liveCubes (editorOf (execute_tool_call (Cmd.spawnPrimitive (some primArgsEx)) "f1" "f2" "proj"
        (some edEx)))).length = 1 ∧
    docComponents (editorOf (execute_tool_call (Cmd.spawnPrimitive (some primArgsEx)) "f1" "f2" "proj"
        (some edEx))) = [] ∧
    docComponents (some edEx) = [] :=
  ⟨rfl, rfl, rfl, rfl⟩

/-- C2 (amended): on an initialized editor whose first level has a component
collection and for a fresh id not used by any existing record — for every
successful `spawnModel`, `spawnCollectable` and `spawnNPC` the fresh id is
appended as the new record's id and as the id of the inserted live object,
and is distinct from every pre-existing record id; for `spawnPointLight` the
new record carries the distinct fresh id but the inserted live light record
carries no id (only position, colour, intensity and range); a decoded
`spawnPrimitive` appends no record at all. -/
theorem spawn_ids_unique_and_shared (fresh f2 pp : String) (s : SavedState)
    (r : RendererState) (l : Level) (ls : List Level) (cs : List ComponentData)
    (hlev : s.levels = some (l :: ls)) (hcs : l.components = some cs)
    (hfresh : ∀ c ∈ cs, c.id ≠ fresh) :
    (∀ a : SpawnModelArgs, resolveModel s.models a.asset_id ≠ "" →
      (docComponents (editorOf (execute_tool_call (Cmd.spawnModel (some a)) fresh f2 pp
          (some { saved_state := some s, renderer_state := some r })))).map
          (fun c => c.id)
        = cs.map (fun c => c.id) ++ [fresh] ∧
      liveModelIds (editorOf (execute_tool_call (Cmd.spawnModel (some a)) fresh f2 pp
          (some { saved_state := some s, renderer_state := some r })))
        = r.models.map (fun m => m.id) ++ [fresh] ∧
      fresh ∉ cs.map (fun c => c.id)) ∧
    (∀ a : SpawnCollectableArgs, resolveModel s.models a.asset_id ≠ "" →
      ∀ st, firstStat s = some st →
      (docComponents (editorOf (execute_tool_call (Cmd.spawnCollectable (some a)) fresh f2 pp
          (some { saved_state := some s, renderer_state := some r })))).map
          (fun c => c.id)
        = cs.map (fun c => c.id) ++ [fresh] ∧
      liveCollectableIds (editorOf (execute_tool_call (Cmd.spawnCollectable (some a)) fresh f2 pp
          (some { saved_state := some s, renderer_state := some r })))
        = r.collectables.map (fun c => c.id) ++ [fresh] ∧
      fresh ∉ cs.map (fun c => c.id)) ∧
    (∀ a : SpawnNPCArgs, resolveModel s.models a.asset_id ≠ "" →
      (docComponents (editorOf (execute_tool_call (Cmd.spawnNPC (some a)) fresh f2 pp
          (some { saved_state := some s, renderer_state := some r })))).map
          (fun c => c.id)
        = cs.map (fun c => c.id) ++ [fresh] ∧
      liveNPCIds (editorOf (execute_tool_call (Cmd.spawnNPC (some a)) fresh f2 pp
          (some { saved_state := some s, renderer_state := some r })))
        = r.npcs.map (fun n => n.id) ++ [fresh] ∧
      fresh ∉ cs.map (fun c => c.id)) ∧
    (∀ a : SpawnPointLightArgs,
      (docComponents (editorOf (execute_tool_call (Cmd.spawnPointLight (some a)) fresh f2 pp
          (some { saved_state := some s, renderer_state := some r })))).map
          (fun c => c.id)
        = cs.map (fun c => c.id) ++ [fresh] ∧
      livePointLights (editorOf (execute_tool_call (Cmd.spawnPointLight (some a)) fresh f2 pp
          (some { saved_state := some s, renderer_state := some r })))
        = r.point_lights ++
            [{ position := a.position, color := a.color.getD (1, 1, 1),
               intensity := a.intensity.getD 1, max_distance := a.radius.getD 10 }] ∧
      fresh ∉ cs.map (fun c => c.id)) ∧
    (∀ a : SpawnPrimitiveArgs,
      docComponents (editorOf (execute_tool_call (Cmd.spawnPrimitive (some a)) fresh f2 pp
          (some { saved_state := some s, renderer_state := some r }))) = cs) := by
  have hnotmem : fresh ∉ cs.map (fun c => c.id) := by
    intro hmem
    obtain ⟨c, hc, hid⟩ := List.mem_map.mp hmem
    exact hfresh c hc hid
  refine ⟨fun a ha => ⟨?_, ?_, hnotmem⟩,
    fun a ha st hst => ⟨?_, ?_, hnotmem⟩,
    fun a ha => ⟨?_, ?_, hnotmem⟩,
    fun a => ⟨?_, ?_, hnotmem⟩,
    fun a => ?_⟩
  · simp [execute_tool_call, spawnModelCall, ha, editorOf, docComponents, savedOf,
      modifyLevel0, pushComponent, hlev, hcs, newModelComponent]
  · simp [execute_tool_call, spawnModelCall, ha, editorOf, liveModelIds, rendererOf]
  · simp [execute_tool_call, spawnCollectableCall, ha, hst, editorOf, docComponents,
      savedOf, modifyLevel0, pushComponent, hlev, hcs, newCollectableComponent]
  · simp [execute_tool_call, spawnCollectableCall, ha, hst, editorOf,
      liveCollectableIds, rendererOf]
  · simp [execute_tool_call, spawnNPCCall, ha, editorOf, docComponents, savedOf,
      modifyLevel0, pushComponent, hlev, hcs, newNPCComponent]
  · simp [execute_tool_call, spawnNPCCall, ha, editorOf, liveNPCIds, rendererOf]
  · simp [execute_tool_call, spawnPointLightCall, editorOf, docComponents, savedOf,
      modifyLevel0, pushComponent, hlev, hcs, newPointLightComponent]
  · simp [execute_tool_call, spawnPointLightCall, editorOf, livePointLights,
      rendererOf]
  · simp [execute_tool_call, spawnPrimitiveCall, editorOf, docComponents, savedOf,
      hlev, hcs]

/-- Witness for C2 (amended): spawning model `m1` on the example editor with
fresh id `u1` appends record id `u1`, inserts live model id `u1`, and `u1`
is absent from the (empty) pre-existing ids. -/
theorem spawn_ids_unique_and_shared_witness :
    (∀ c ∈ ([] : List ComponentData), c.id ≠ "u1") ∧
    resolveModel ssEx.models modelArgsEx.asset_id ≠ "" ∧
    ((docComponents (editorOf (execute_tool_call (Cmd.spawnModel (some modelArgsEx)) "u1" "x" "proj"
          (some { saved_state := some ssEx, renderer_state := some rsEx })))).map
          (fun c => c.id)
        = List.map (fun c => c.id) ([] : List ComponentData) ++ ["u1"] ∧
      liveModelIds (editorOf (execute_tool_call (Cmd.spawnModel (some modelArgsEx)) "u1" "x" "proj"
          (some { saved_state := some ssEx, renderer_state := some rsEx })))
        = rsEx.models.map (fun m => m.id) ++ ["u1"] ∧
      "u1" ∉ List.map (fun c => c.id) ([] : List ComponentData)) :=
  ⟨by simp, by decide,
   (spawn_ids_unique_and_shared "u1" "x" "proj" ssEx rsEx lvlEx [] [] rfl rfl
      (by simp)).1 modelArgsEx (by decide)⟩


/-- Inversion of `existingInfo`: a successful reuse means the document really
holds a landscape catalog entry with that asset id whose heightmap is the
reused file name. -/
theorem existingInfo_resolves (a : GenerateHeightmapArgs) (e : Editor)
    (p : Vec3) (aid fn : String)
    (h : existingInfo a e = some (p, aid, fn)) :
    ∃ s las ld, e.saved_state = some s ∧ s.landscapes = some las ∧ ld ∈ las ∧
      ld.id = aid ∧ ld.heightmap = some { fileName := fn } := by
  unfold existingInfo at h
  split at h
  · exact absurd h (by simp)
  · rename_i s hss
    split at h
    · exact absurd h (by simp)
    · rename_i c hc
      split at h
      · exact absurd h (by simp)
      · rename_i las hlas
        split at h
        · exact absurd h (by simp)
        · rename_i ld hld
          split at h
          · exact absurd h (by simp)
          · rename_i f hhm
            simp only [Option.some.injEq, Prod.mk.injEq] at h
            obtain ⟨-, haid, hfn⟩ := h
            refine ⟨s, las, ld, hss, hlas, List.mem_of_find?_eq_some hld, ?_, ?_⟩
            · have hbeq : ld.id = c.asset_id := by
                simpa using List.find?_some hld
              rw [hbeq, haid]
            · cases f with
              | mk fname => simp_all

/-- C5 counterexample: on a document with no landscape asset entries at all,
a successful `generateHeightmap` (with a non-empty project path) schedules
the upload under the freshly synthesized asset id and file name, yet the
document afterwards is unchanged and still contains no landscape asset
entry — so nothing in the document points at the written file. -/
theorem heightmap_no_doc_entry_counterexample :
    (uploadOf (execute_tool_call (Cmd.generateHeightmap (some ghArgsEx)) "u-asset" "u-file" "proj"
        (some edEx)))
      = some { projectPath := "proj", landscapeAssetId := "u-asset",
               filename := "heightmap_" ++ "u-file" ++ ".png" } ∧
    savedOf (editorOf (execute_tool_call (Cmd.generateHeightmap (some ghArgsEx)) "u-asset" "u-file" "proj"
        (some edEx))) = some ssEx ∧
    ssEx.landscapes = none :=
  ⟨rfl, rfl, rfl⟩

/-- C5 (amended): `generateHeightmap` never mutates the document.  When the
command finds an existing landscape asset entry carrying a heightmap (via
the targeted component or the first `Landscape` component), that entry's
file name is reused as the upload target, so the unchanged document keeps a
landscape asset entry pointing at the written file; otherwise the
heightfield is uploaded under a freshly synthesized asset id and file name
and the document gains no landscape asset entry. -/
theorem heightmap_doc_pointer (a : GenerateHeightmapArgs) (f1 f2 pp : String)
    (s : SavedState) (r : RendererState) (hpp : pp ≠ "") :
    (∀ p aid fn,
      existingInfo a { saved_state := some s, renderer_state := some r }
          = some (p, aid, fn) →
      (uploadOf (execute_tool_call (Cmd.generateHeightmap (some a)) f1 f2 pp
          (some { saved_state := some s, renderer_state := some r })))
        = some { projectPath := pp, landscapeAssetId := aid, filename := fn } ∧
      savedOf (editorOf (execute_tool_call (Cmd.generateHeightmap (some a)) f1 f2 pp
          (some { saved_state := some s, renderer_state := some r })))
        = some s ∧
      (∃ las ld, s.landscapes = some las ∧ ld ∈ las ∧ ld.id = aid ∧
        ld.heightmap = some { fileName := fn })) ∧
    (existingInfo a { saved_state := some s, renderer_state := some r } = none →
      (uploadOf (execute_tool_call (Cmd.generateHeightmap (some a)) f1 f2 pp
          (some { saved_state := some s, renderer_state := some r })))
        = some { projectPath := pp, landscapeAssetId := f1,
                 filename := "heightmap_" ++ f2 ++ ".png" } ∧
      savedOf (editorOf (execute_tool_call (Cmd.generateHeightmap (some a)) f1 f2 pp
          (some { saved_state := some s, renderer_state := some r })))
        = some s) := by
  constructor
  · intro p aid fn h
    refine ⟨?_, ?_, ?_⟩
    · simp [execute_tool_call, generateHeightmapCall, h, hpp, uploadOf]
    · simp [execute_tool_call, generateHeightmapCall, h, savedOf, editorOf]
    · obtain ⟨s2, las, ld, hs2, hlas, hmem, hid, hhm⟩ :=
        existingInfo_resolves a { saved_state := some s, renderer_state := some r }
          p aid fn h
      obtain rfl : s = s2 := by simpa using hs2
      exact ⟨las, ld, hlas, hmem, hid, hhm⟩
  · intro h
    constructor
    · simp [execute_tool_call, generateHeightmapCall, h, hpp, uploadOf]
    · simp [execute_tool_call, generateHeightmapCall, h, savedOf, editorOf]

/-- Witness for C5 (amended): on the example document (no landscape entry) a
fresh asset id and file name are used for the upload and the document stays
unchanged. -/
theorem heightmap_doc_pointer_witness :
    ("proj" : String) ≠ "" ∧
    existingInfo ghArgsEx { saved_state := some ssEx, renderer_state := some rsEx } = none ∧
    ((uploadOf (execute_tool_call (Cmd.generateHeightmap (some ghArgsEx)) "u-asset" "u-file" "proj"
        (some { saved_state := some ssEx, renderer_state := some rsEx })))
      = some { projectPath := "proj", landscapeAssetId := "u-asset",
               filename := "heightmap_" ++ "u-file" ++ ".png" } ∧
     savedOf (editorOf (execute_tool_call (Cmd.generateHeightmap (some ghArgsEx)) "u-asset" "u-file" "proj"
        (some { saved_state := some ssEx, renderer_state := some rsEx })))
      = some ssEx) :=
  ⟨by decide, rfl,
   (heightmap_doc_pointer ghArgsEx "u-asset" "u-file" "proj" ssEx rsEx (by decide)).2 rfl⟩

/-- C6 counterexample: a document holding a `Landscape` component at
position `(5, 0, 5)` whose asset id resolves to no landscape catalog entry —
after `generateHeightmap` the live landscape is placed at the default
`(0, 0, 0)`, not at the component's position, so the existing position is
not reused for every document holding a landscape record. -/
theorem heightmap_position_counterexample :
    docComponents
        (some { saved_state := some ssLandDanglingEx, renderer_state := some rsEx })
      = [landCompEx] ∧
    landCompEx.kind = some ComponentKind.Landscape ∧
    landCompEx.generic_properties.position = (5, 0, 5) ∧
    liveLandscapes (editorOf (execute_tool_call (Cmd.generateHeightmap (some ghArgsEx)) "ua" "uf" "proj"
        (some { saved_state := some ssLandDanglingEx, renderer_state := some rsEx })))
      = [{ id := "generated_landscape", position := (0, 0, 0) }] ∧
    ((0, 0, 0) : Vec3) ≠ ((5, 0, 5) : Vec3) :=
  ⟨rfl, rfl, rfl, rfl, by decide⟩

/-- C6 (amended): for a `generateHeightmap` with no target id on a document
whose first `Landscape` component sits at position `p` and whose asset id
resolves to a landscape catalog entry carrying a heightmap, the freshly
generated live landscape is placed at `p`, and the live landscape and
terrain collections are cleared and repopulated with exactly the one
generated landscape. -/
theorem heightmap_position_reuse (a : GenerateHeightmapArgs) (f1 f2 pp : String)
    (s : SavedState) (r : RendererState) (l : Level) (ls : List Level)
    (cs : List ComponentData) (c : ComponentData) (las : List LandscapeAsset)
    (ld : LandscapeAsset) (hf : HeightmapFile)
    (hcid : a.component_id = none)
    (hlev : s.levels = some (l :: ls)) (hcs : l.components = some cs)
    (hfind : cs.find? (fun x => landscapeKind x) = some c)
    (hlas : s.landscapes = some las)
    (hld : las.find? (fun x => x.id == c.asset_id) = some ld)
    (hhm : ld.heightmap = some hf) :
    liveLandscapes (editorOf (execute_tool_call (Cmd.generateHeightmap (some a)) f1 f2 pp
        (some { saved_state := some s, renderer_state := some r })))
      = [{ id := "generated_landscape", position := c.generic_properties.position }] ∧
    (rendererOf (editorOf (execute_tool_call (Cmd.generateHeightmap (some a)) f1 f2 pp
        (some { saved_state := some s, renderer_state := some r })))).map
        (fun rr => rr.terrain_managers)
      = some [] := by
  have hinfo : existingInfo a { saved_state := some s, renderer_state := some r }
      = some (c.generic_properties.position, c.asset_id, hf.fileName) := by
    simp [existingInfo, existingComp, hcid, hlev, hcs, hfind, hlas, hld, hhm]
  constructor <;>
    simp [execute_tool_call, generateHeightmapCall, hinfo, editorOf, liveLandscapes,
      rendererOf]

/-- Witness for C6 (amended): on the example document with a landscape
component at `(5, 0, 5)` resolving to entry `L1` with heightmap `hm.png`,
the generated live landscape is the single one at `(5, 0, 5)`. -/
theorem heightmap_position_reuse_witness :
    ghArgsEx.component_id = none ∧
    liveLandscapes (editorOf (execute_tool_call (Cmd.generateHeightmap (some ghArgsEx)) "ua" "uf" "proj"
        (some { saved_state := some ssLandEx, renderer_state := some rsEx })))
      = [{ id := "generated_landscape", position := landCompEx.generic_properties.position }] :=
  ⟨rfl,
   (heightmap_position_reuse ghArgsEx "ua" "uf" "proj" ssLandEx rsEx
      { components := some [landCompEx], procedural_sky := none } [] [landCompEx]
      landCompEx [{ id := "L1", heightmap := some { fileName := "hm.png" } }]
      { id := "L1", heightmap := some { fileName := "hm.png" } }
      { fileName := "hm.png" } rfl rfl rfl rfl rfl rfl rfl).1⟩


/-! ### Find-or-create for grass -/

/-- A collection without grass components is untouched by the grass update
pass. -/
theorem no_grass_map (a : ConfigureGrassArgs) (cs : List ComponentData)
    (h : ∀ c ∈ cs, grassKind c = false) :
    cs.map (updateGrassComponent a) = cs := by
  induction cs with
  | nil => rfl
  | cons c cs ih =>
    have hc := h c (by simp)
    have hupd : updateGrassComponent a c = c := by
      simp [updateGrassComponent, grassMatch, hc]
    simp [hupd, ih (fun x hx => h x (by simp [hx]))]

/-- A collection without grass components has no grass match. -/
theorem no_grass_any (a : ConfigureGrassArgs) (cs : List ComponentData)
    (h : ∀ c ∈ cs, grassKind c = false) :
    cs.any (fun c => grassMatch a c) = false := by
  induction cs with
  | nil => rfl
  | cons c cs ih =>
    have hpc : grassMatch a c = false := by
      simp [grassMatch, h c (by simp)]
    simp only [List.any_cons, hpc, Bool.false_or]
    exact ih (fun x hx => h x (by simp [hx]))

/-- A collection without grass components filters to no grass. -/
theorem no_grass_filter (cs : List ComponentData)
    (h : ∀ c ∈ cs, grassKind c = false) :
    cs.filter (fun c => grassKind c) = [] := by
  induction cs with
  | nil => rfl
  | cons c cs ih =>
    have hc := h c (by simp)
    simp [List.filter, hc, ih (fun x hx => h x (by simp [hx]))]

/-- Two consecutive grass document passes on a grass-free collection leave
the original components plus exactly one grass component: the one created by
the first pass, updated by the second. -/
theorem configureGrassDocComps_twice (a1 a2 : ConfigureGrassArgs)
    (fr1 fr2 : String) (cs : List ComponentData)
    (h1 : a1.component_id = none) (h2 : a2.component_id = none)
    (hng : ∀ c ∈ cs, grassKind c = false) :
    configureGrassDocComps a2 fr2 (configureGrassDocComps a1 fr1 cs)
      = cs ++ [updateGrassComponent a2 (newGrassComponent fr1 (newGrassProps a1))] := by
  have hmap1 := no_grass_map a1 cs hng
  have hany1 := no_grass_any a1 cs hng
  have hmap2 := no_grass_map a2 cs hng
  have hany2 := no_grass_any a2 cs hng
  have hg1 : configureGrassDocComps a1 fr1 cs
      = cs ++ [newGrassComponent fr1 (newGrassProps a1)] := by
    simp only [configureGrassDocComps, hmap1, hany1, h1, Option.isSome_none,
      Bool.or_false, Bool.false_or]
    simp
  rw [hg1]
  have hm : grassMatch a2 (newGrassComponent fr1 (newGrassProps a1)) = true := by
    simp [grassMatch, grassKind, newGrassComponent, h2]
  simp only [configureGrassDocComps, List.map_append, hmap2, List.any_append,
    hany2, h2, Option.isSome_none, List.any_cons, List.any_nil, hm,
    Bool.false_or, Bool.or_false, Bool.or_true, Bool.true_or,
    List.map_cons, List.map_nil]
  simp


/-- Updating the properties created from the first call's arguments with the
second call's arguments yields the field-wise union, the second call
winning. -/
theorem applyGrass_union (a1 a2 : ConfigureGrassArgs) :
    applyGrassArgsDoc a2 (newGrassProps a1)
      = { wind_strength := (a2.wind_strength <|> a1.wind_strength).getD (5 / 2),
          wind_speed := (a2.wind_speed <|> a1.wind_speed).getD (3 / 10),
          blade_height := (a2.blade_height <|> a1.blade_height).getD (11 / 4),
          blade_width := (a2.blade_width <|> a1.blade_width).getD (3 / 100),
          blade_density := ratToU32 ((a2.blade_density <|> a1.blade_density).getD 15),
          render_distance := (a2.render_distance <|> a1.render_distance).getD 150,
          grid_size := 10, brownian_strength := 1 / 2 } := by
  simp only [applyGrassArgsDoc, newGrassProps, ProceduralGrassProperties.mk.injEq]
  refine ⟨?_, ?_, ?_, ?_, ?_, ?_, trivial, trivial⟩
  · cases ha : a2.wind_strength <;> cases hb : a1.wind_strength <;> simp [ha, hb]
  · cases ha : a2.wind_speed <;> cases hb : a1.wind_speed <;> simp [ha, hb]
  · cases ha : a2.blade_height <;> cases hb : a1.blade_height <;> simp [ha, hb]
  · cases ha : a2.blade_width <;> cases hb : a1.blade_width <;> simp [ha, hb]
  · cases ha : a2.blade_density <;> cases hb : a1.blade_density <;> simp [ha, hb]
  · cases ha : a2.render_distance <;> cases hb : a1.render_distance <;> simp [ha, hb]

/-- C7 counterexample: on a document whose only level has no component
collection at all and no grass record, two consecutive `configureGrass`
commands with no target id leave the document still without any grass
`ComponentRecord` — not with exactly one as claimed. -/
theorem grass_find_or_create_counterexample :
    grassComponents (some { saved_state := some ssNoCompsEx, renderer_state := none }) = [] ∧
    grassComponents
        (editorOf (execute_tool_call (Cmd.configureGrass (some grassArgs2Ex)) "gb" "y" "proj"
          (editorOf (execute_tool_call (Cmd.configureGrass (some grassArgs1Ex)) "ga" "x" "proj"
            (some { saved_state := some ssNoCompsEx, renderer_state := none })))))
      = [] :=
  ⟨rfl, rfl⟩

/-- C7 (amended): starting from a document whose first level has a component
collection (possibly empty) with no `ProceduralGrass` record, two
consecutive `configureGrass` commands with no target id leave the document
with exactly one grass `ComponentRecord`, whose properties are the union of
the fields set across the two calls with the second call winning on
conflict (density cast to `u32`, unset fields at the creation defaults).
With no component collection on the level, the commands create nothing (see
the counterexample). -/
theorem grass_find_or_create (a1 a2 : ConfigureGrassArgs)
    (fr1 fr2 fx1 fx2 pp1 pp2 : String) (s : SavedState)
    (ro : Option RendererState) (l : Level) (ls : List Level)
    (cs : List ComponentData)
    (h1 : a1.component_id = none) (h2 : a2.component_id = none)
    (hlev : s.levels = some (l :: ls)) (hcs : l.components = some cs)
    (hng : ∀ c ∈ cs, grassKind c = false) :
    ((grassComponents
        (editorOf (execute_tool_call (Cmd.configureGrass (some a2)) fr2 fx2 pp2
          (editorOf (execute_tool_call (Cmd.configureGrass (some a1)) fr1 fx1 pp1
            (some { saved_state := some s, renderer_state := ro })))))).map
        (fun c => c.procedural_grass_properties)
      = [some
          { wind_strength := (a2.wind_strength <|> a1.wind_strength).getD (5 / 2),
            wind_speed := (a2.wind_speed <|> a1.wind_speed).getD (3 / 10),
            blade_height := (a2.blade_height <|> a1.blade_height).getD (11 / 4),
            blade_width := (a2.blade_width <|> a1.blade_width).getD (3 / 100),
            blade_density := ratToU32 ((a2.blade_density <|> a1.blade_density).getD 15),
            render_distance := (a2.render_distance <|> a1.render_distance).getD 150,
            grid_size := 10, brownian_strength := 1 / 2 }]) ∧
    (grassComponents
        (editorOf (execute_tool_call (Cmd.configureGrass (some a2)) fr2 fx2 pp2
          (editorOf (execute_tool_call (Cmd.configureGrass (some a1)) fr1 fx1 pp1
            (some { saved_state := some s, renderer_state := ro })))))).length
      = 1 := by
  have htwice := configureGrassDocComps_twice a1 a2 fr1 fr2 cs h1 h2 hng
  have hfil := no_grass_filter cs hng
  have hu : grassKind (updateGrassComponent a2 (newGrassComponent fr1 (newGrassProps a1)))
      = true := by
    simp [updateGrassComponent, grassMatch, grassKind, newGrassComponent, h2]
  have key : grassComponents
      (editorOf (execute_tool_call (Cmd.configureGrass (some a2)) fr2 fx2 pp2
        (editorOf (execute_tool_call (Cmd.configureGrass (some a1)) fr1 fx1 pp1
          (some { saved_state := some s, renderer_state := ro })))))
      = [updateGrassComponent a2 (newGrassComponent fr1 (newGrassProps a1))] := by
    cases ro <;>
      simp [execute_tool_call, configureGrassCall, configureGrassLevel, modifyLevel0,
        hlev, hcs, editorOf, grassComponents, docComponents, savedOf, htwice,
        List.filter_append, hfil, hu]
  have hup : (updateGrassComponent a2
        (newGrassComponent fr1 (newGrassProps a1))).procedural_grass_properties
      = some (applyGrassArgsDoc a2 (newGrassProps a1)) := by
    simp [updateGrassComponent, grassMatch, grassKind, newGrassComponent, h2]
  constructor
  · rw [key]
    simp [hup, applyGrass_union]
  · rw [key]
    rfl

/-- Witness for C7 (amended): two example grass calls on the example document
(empty component collection) leave exactly one grass record with the second
call's wind values, the first call's absent fields at defaults, and density
`10` (the truncated `21/2`). -/
theorem grass_find_or_create_witness :
    (∀ c ∈ ([] : List ComponentData), grassKind c = false) ∧
    ((grassComponents
        (editorOf (execute_tool_call (Cmd.configureGrass (some grassArgs2Ex)) "gb" "y" "proj"
          (editorOf (execute_tool_call (Cmd.configureGrass (some grassArgs1Ex)) "ga" "x" "proj"
            (some { saved_state := some ssEx, renderer_state := none })))))).map
        (fun c => c.procedural_grass_properties)
      = [some
          { wind_strength := (grassArgs2Ex.wind_strength <|> grassArgs1Ex.wind_strength).getD (5 / 2),
            wind_speed := (grassArgs2Ex.wind_speed <|> grassArgs1Ex.wind_speed).getD (3 / 10),
            blade_height := (grassArgs2Ex.blade_height <|> grassArgs1Ex.blade_height).getD (11 / 4),
            blade_width := (grassArgs2Ex.blade_width <|> grassArgs1Ex.blade_width).getD (3 / 100),
            blade_density := ratToU32 ((grassArgs2Ex.blade_density <|> grassArgs1Ex.blade_density).getD 15),
            render_distance := (grassArgs2Ex.render_distance <|> grassArgs1Ex.render_distance).getD 150,
            grid_size := 10, brownian_strength := 1 / 2 }]) ∧
    (grassComponents
        (editorOf (execute_tool_call (Cmd.configureGrass (some grassArgs2Ex)) "gb" "y" "proj"
          (editorOf (execute_tool_call (Cmd.configureGrass (some grassArgs1Ex)) "ga" "x" "proj"
            (some { saved_state := some ssEx, renderer_state := none })))))).length
      = 1 :=
  ⟨by simp,
   (grass_find_or_create grassArgs1Ex grassArgs2Ex "ga" "gb" "x" "y" "proj" "proj"
      ssEx none lvlEx [] [] rfl rfl rfl rfl (by simp)).1,
   (grass_find_or_create grassArgs1Ex grassArgs2Ex "ga" "gb" "x" "y" "proj" "proj"
      ssEx none lvlEx [] [] rfl rfl rfl rfl (by simp)).2⟩

end EntropyChat
